import Mathlib

/-!
# UC8151D e-paper driver (lvgl_esp32_drivers): embedding and verification

Shallow embedding of `lvgl_tft/uc8151d.c` and of the display helpers of `lvgl_helpers.c`.

* Machine integers are `Nat` / `Int` with explicit reductions modulo `2^w`.
* `uint8_t *buf` is a memory map `Nat → Nat`: `buf i` is the byte at offset `i`.
* Calls into the SDK (bus, GPIO, scheduler) are recorded as events appended to the
  trace of a `World` that is passed through every driver function.
-/

namespace UC8151D

/-! ## Build-time configuration -/

/-- Build-time configuration that the driver reads through preprocessor names. -/
structure Config where
  /-- Pin number `CONFIG_LV_DISP_PIN_DC`. -/
  PIN_DC : Nat
  /-- Pin number `CONFIG_LV_DISP_PIN_RST`. -/
  PIN_RST : Nat
  /-- Pin number `CONFIG_LV_DISP_PIN_BUSY`. -/
  PIN_BUSY : Nat
  /-- Whether `CONFIG_LV_DISP_USE_RST` is defined. -/
  USE_RST : Bool
  /-- Whether `CONFIG_LV_DISPLAY_ORIENTATION_PORTRAIT_INVERTED` is defined. -/
  ORIENTATION_PORTRAIT_INVERTED : Bool
  /-- Whether `CONFIG_LV_DISPLAY_ORIENTATION_PORTRAIT` is defined. -/
  ORIENTATION_PORTRAIT : Bool
  /-- Value of `EPD_WIDTH` (`LV_HOR_RES_MAX`, or 256 when that is undefined). -/
  EPD_WIDTH : Nat
  /-- Value of `EPD_HEIGHT` (`LV_VER_RES_MAX`, or 128 when that is undefined). -/
  EPD_HEIGHT : Nat
  /-- FreeRTOS tick frequency `configTICK_RATE_HZ`. -/
  configTICK_RATE_HZ : Nat
  /-- FreeRTOS option `INCLUDE_vTaskSuspend`: with it a `portMAX_DELAY` wait never times out. -/
  INCLUDE_vTaskSuspend : Bool
  deriving DecidableEq, Repr

/-- Source: `#define EPD_ROW_LEN (EPD_HEIGHT / 8u)`. -/
def EPD_ROW_LEN (cfg : Config) : Nat := cfg.EPD_HEIGHT / 8

/-! ## Framebuffer adapter -/

/-- Source: `#define BIT_SET(a, b) ((a) |= (1U << (b)))`, stored back into a `uint8_t`. -/
def BIT_SET (a b : Nat) : Nat := (a ||| ((1 <<< b) % 4294967296)) % 256

/-- Source: `#define BIT_CLEAR(a, b) ((a) &= ~(1U << (b)))`, stored back into a `uint8_t`;
`~v` on a 32-bit unsigned is `4294967295 - v`. -/
def BIT_CLEAR (a b : Nat) : Nat := (a &&& (4294967295 - (1 <<< b) % 4294967296)) % 256

/-- The `uint16_t byte_index` of `uc8151d_lv_set_fb_cb`: `(x >> 3u) + (y * EPD_ROW_LEN)` is
evaluated in 32-bit unsigned arithmetic and then stored into 16 bits. -/
def byte_index (cfg : Config) (x y : Int) : Nat :=
  ((((x >>> (3 : Nat)) + y * (EPD_ROW_LEN cfg : Int)) % 4294967296) % 65536).toNat

/-- The `uint8_t bit_index` of `uc8151d_lv_set_fb_cb`: `x & 0x07u`. -/
def bit_index (x : Int) : Nat := (x % 8).toNat

/-- Source: `uc8151d_lv_set_fb_cb(disp_drv, buf, buf_w, x, y, color, opa)`; `color_full` is
`color.full`. The arguments `disp_drv`, `buf_w` and `opa` are not read by the function. -/
def uc8151d_lv_set_fb_cb (cfg : Config) (buf : Nat → Nat) (x y : Int) (color_full : Nat) :
    Nat → Nat :=
  if color_full ≠ 0 then
    Function.update buf (byte_index cfg x y)
      (BIT_SET (buf (byte_index cfg x y)) (7 - bit_index x))
  else
    Function.update buf (byte_index cfg x y)
      (BIT_CLEAR (buf (byte_index cfg x y)) (7 - bit_index x))

/-- Following the spec's words: the bit of pixel `(x, y)` is bit `7 - (x & 7)` of the byte at
index `(x >> 3) + y * row_length`, the index taken as a natural number. -/
def read_pixel (cfg : Config) (buf : Nat → Nat) (x y : Int) : Bool :=
  Nat.testBit (buf ((x >>> (3 : Nat)) + y * (EPD_ROW_LEN cfg : Int)).toNat) (7 - (x % 8).toNat)

/-- The C type `lv_coord_t` is `int16_t`: a value stored into it is reduced to 16 bits, signed. -/
def to_lv_coord (v : Int) : Int := (v + 32768) % 65536 - 32768

/-- Source: `lv_area_t`. -/
structure lv_area_t where
  x1 : Int
  y1 : Int
  x2 : Int
  y2 : Int
  deriving DecidableEq, Repr

/-- Source: `uc8151d_lv_rounder_cb(disp_drv, area)`, returning the area it leaves behind. -/
def uc8151d_lv_rounder_cb (cfg : Config) (_area : lv_area_t) : lv_area_t :=
  { x1 := to_lv_coord 0
    y1 := to_lv_coord 0
    x2 := to_lv_coord ((cfg.EPD_WIDTH : Int) - 1)
    y2 := to_lv_coord ((cfg.EPD_HEIGHT : Int) - 1) }

/-! ## SDK constants and the scheduler model -/

/-- Source: `#define EVT_BUSY (1UL << 0UL)`. -/
def EVT_BUSY : Nat := 1

/-- ESP-IDF error code `ESP_OK`. -/
def ESP_OK : Nat := 0

/-- ESP-IDF error code `ESP_ERR_TIMEOUT`. -/
def ESP_ERR_TIMEOUT : Nat := 263

/-- FreeRTOS `portMAX_DELAY` for a 32-bit `TickType_t`. -/
def portMAX_DELAY : Nat := 4294967295

/-- FreeRTOS `pdMS_TO_TICKS(xTimeInMs)`:
`(TickType_t)(((TickType_t)(xTimeInMs) * (TickType_t)configTICK_RATE_HZ) / (TickType_t)1000)`
with a 32-bit `TickType_t`. -/
def pdMS_TO_TICKS (cfg : Config) (xTimeInMs : Nat) : Nat :=
  ((xTimeInMs % 4294967296) * (cfg.configTICK_RATE_HZ % 4294967296) % 4294967296) / 1000

/-- Which wrapper issued a bus transfer (ghost information, not sent on the bus). -/
inductive XferKind where
  | command
  | data
  deriving DecidableEq, Repr

/-- Source: the `gpio_config_t` initialiser of `uc8151d_init`. -/
structure gpio_config_t where
  intr_type : Nat
  mode : Nat
  pin_bit_mask : Nat
  pull_down_en : Nat
  pull_up_en : Nat
  deriving DecidableEq, Repr

/-- ESP-IDF `GPIO_INTR_POSEDGE`. -/
def GPIO_INTR_POSEDGE : Nat := 1

/-- ESP-IDF `GPIO_MODE_INPUT`. -/
def GPIO_MODE_INPUT : Nat := 1

/-- Source: `#define PIN_BUSY_BIT ((1ULL << (uint8_t)(CONFIG_LV_DISP_PIN_BUSY)))`. -/
def PIN_BUSY_BIT (cfg : Config) : Nat := (1 <<< (cfg.PIN_BUSY % 256)) % 18446744073709551616

/-- One call from the driver into the SDK. -/
inductive Event where
  /-- Call `disp_wait_for_pending_transactions()`. -/
  | disp_wait_for_pending_transactions
  /-- Call `gpio_set_level(pin, level)`. -/
  | gpio_set_level (pin : Nat) (level : Nat)
  /-- Call `disp_spi_send_data(data, len)`, with the bytes it is handed. -/
  | disp_spi_send_data (kind : XferKind) (bytes : List Nat)
  /-- Call `vTaskDelay(ticks)`. -/
  | vTaskDelay (ticks : Nat)
  /-- Call `xEventGroupWaitBits(uc8151d_evts, bits, clear, all, ticks)`. -/
  | xEventGroupWaitBits (uxBitsToWaitFor : Nat) (xClearOnExit xWaitForAllBits : Bool)
      (xTicksToWait : Nat)
  /-- Call `gpio_config(&conf)`. -/
  | gpio_config (conf : gpio_config_t)
  /-- Call `gpio_install_isr_service(flags)`. -/
  | gpio_install_isr_service (flags : Nat)
  /-- Call `gpio_isr_handler_add(pin, uc8151d_busy_intr, arg)`. -/
  | gpio_isr_handler_add (pin : Nat) (arg : Nat)
  deriving DecidableEq, Repr

/-- Whether the calling task still makes progress. -/
inductive Status where
  /-- The task is executing driver code. -/
  | running
  /-- The task is blocked for ever inside `xEventGroupWaitBits`. -/
  | blocked
  /-- The task was stopped by `ESP_ERROR_CHECK`. -/
  | aborted
  deriving DecidableEq, Repr

/-- State threaded through the driver: the calls made so far, the bits of the event group
`uc8151d_evts`, the number of waits performed, and whether the task still runs. -/
structure World where
  trace : List Event
  group : Nat
  waits : Nat
  status : Status
  deriving DecidableEq, Repr

/-- What the busy line does around one wait: whether `uc8151d_busy_intr` ran since the previous
wait, and after how many ticks from the call it runs next (`none`: it does not run again). -/
structure BusyEnv where
  isr_before : Bool
  isr_after : Option Nat
  deriving DecidableEq, Repr

/-- FreeRTOS unblock condition of `xEventGroupWaitBits`. -/
def wait_condition (bits uxBitsToWaitFor : Nat) (xWaitForAllBits : Bool) : Bool :=
  if xWaitForAllBits then bits &&& uxBitsToWaitFor == uxBitsToWaitFor
  else bits &&& uxBitsToWaitFor != 0

/-- FreeRTOS exit of `xEventGroupWaitBits`: the bits returned and the bits left in the group. -/
def wait_exit (bits uxBitsToWaitFor : Nat) (xClearOnExit xWaitForAllBits : Bool) : Nat × Nat :=
  if xClearOnExit && wait_condition bits uxBitsToWaitFor xWaitForAllBits then
    (bits, bits ^^^ (bits &&& uxBitsToWaitFor))
  else (bits, bits)

/-- Whether a wait of `xTicksToWait` ticks has no timeout: FreeRTOS blocks indefinitely on
`portMAX_DELAY` when `INCLUDE_vTaskSuspend` is 1. -/
def waits_forever (cfg : Config) (xTicksToWait : Nat) : Bool :=
  cfg.INCLUDE_vTaskSuspend && xTicksToWait == portMAX_DELAY

/-- FreeRTOS `xEventGroupWaitBits` on a group holding `group`, where the only setter is
`uc8151d_busy_intr` (it sets `EVT_BUSY`) running `isr_after` ticks after the call. The result is
`none` when the call never returns, otherwise the returned bits and the bits left in the group. -/
def xEventGroupWaitBits (cfg : Config) (group : Nat) (isr_after : Option Nat)
    (uxBitsToWaitFor : Nat) (xClearOnExit xWaitForAllBits : Bool) (xTicksToWait : Nat) :
    Option (Nat × Nat) :=
  if wait_condition group uxBitsToWaitFor xWaitForAllBits then
    some (wait_exit group uxBitsToWaitFor xClearOnExit xWaitForAllBits)
  else
    match isr_after with
    | some k =>
      if waits_forever cfg xTicksToWait || decide (k < xTicksToWait) then
        if wait_condition (group ||| EVT_BUSY) uxBitsToWaitFor xWaitForAllBits then
          some (wait_exit (group ||| EVT_BUSY) uxBitsToWaitFor xClearOnExit xWaitForAllBits)
        else if waits_forever cfg xTicksToWait then none
        else some (group ||| EVT_BUSY, group ||| EVT_BUSY)
      else some (group, group)
    | none => if waits_forever cfg xTicksToWait then none else some (group, group)

/-! ## Command/data transport -/

/-- Record one SDK call, unless the task no longer runs. -/
def emit (e : Event) (w : World) : World :=
  match w.status with
  | Status.running => { w with trace := w.trace ++ [e] }
  | _ => w

/-- Source: `uc8151d_spi_send_cmd(cmd)`. -/
def uc8151d_spi_send_cmd (cfg : Config) (cmd : Nat) (w : World) : World :=
  w |> emit Event.disp_wait_for_pending_transactions
    |> emit (Event.gpio_set_level cfg.PIN_DC 0)
    |> emit (Event.disp_spi_send_data XferKind.command [cmd])

/-- Source: `uc8151d_spi_send_data(data, len)`; `data` holds the `len` bytes pointed to. -/
def uc8151d_spi_send_data (cfg : Config) (data : List Nat) (w : World) : World :=
  w |> emit Event.disp_wait_for_pending_transactions
    |> emit (Event.gpio_set_level cfg.PIN_DC 1)
    |> emit (Event.disp_spi_send_data XferKind.data data)

/-- Source: `uc8151d_spi_send_data_byte(data)`. -/
def uc8151d_spi_send_data_byte (cfg : Config) (data : Nat) (w : World) : World :=
  w |> emit Event.disp_wait_for_pending_transactions
    |> emit (Event.gpio_set_level cfg.PIN_DC 1)
    |> emit (Event.disp_spi_send_data XferKind.data [data])

/-- The `uint32_t wait_ticks` of `uc8151d_wait_busy`:
`timeout_ms == 0 ? portMAX_DELAY : pdMS_TO_TICKS(timeout_ms)`. -/
def wait_ticks (cfg : Config) (timeout_ms : Nat) : Nat :=
  if timeout_ms = 0 then portMAX_DELAY else pdMS_TO_TICKS cfg timeout_ms

/-- The bits of `uc8151d_evts` when the `n`-th wait is entered: `uc8151d_busy_intr` has set
`EVT_BUSY` if it ran since the previous wait. -/
def group_at_wait (env : Nat → BusyEnv) (w : World) : Nat :=
  if (env w.waits).isr_before then w.group ||| EVT_BUSY else w.group

/-- Source: `uc8151d_wait_busy(timeout_ms)`, with `timeout_ms` a `uint32_t`. The result is
`none` when the call does not return. -/
def uc8151d_wait_busy (cfg : Config) (env : Nat → BusyEnv) (timeout_ms : Nat) (w : World) :
    Option Nat × World :=
  match w.status with
  | Status.running =>
    let group := group_at_wait env w
    let called :=
      w.trace ++ [Event.xEventGroupWaitBits EVT_BUSY true true (wait_ticks cfg timeout_ms)]
    match xEventGroupWaitBits cfg group (env w.waits).isr_after EVT_BUSY true true
        (wait_ticks cfg timeout_ms) with
    | some (bits, left) =>
      (some (if bits &&& EVT_BUSY ≠ 0 then ESP_OK else ESP_ERR_TIMEOUT),
        { trace := called, group := left, waits := w.waits + 1, status := Status.running })
    | none =>
      (none, { trace := called, group := group, waits := w.waits + 1, status := Status.blocked })
  | _ => (none, w)

/-! ## Panel driver -/

/-- Source: `uc8151d_sleep()`. -/
def uc8151d_sleep (cfg : Config) (env : Nat → BusyEnv) (w : World) : World :=
  let w := uc8151d_spi_send_cmd cfg 0x50 w
  let w := uc8151d_spi_send_data_byte cfg 0xf7 w
  let w := uc8151d_spi_send_cmd cfg 0x02 w
  let w := (uc8151d_wait_busy cfg env 0 w).2
  let w := uc8151d_spi_send_cmd cfg 0x07 w
  uc8151d_spi_send_data_byte cfg 0xa5 w

/-- Source: `uc8151d_reset()`. -/
def uc8151d_reset (cfg : Config) (w : World) : World :=
  if cfg.USE_RST then
    w |> emit (Event.gpio_set_level cfg.PIN_RST 0)
      |> emit (Event.vTaskDelay (pdMS_TO_TICKS cfg 20))
      |> emit (Event.gpio_set_level cfg.PIN_RST 1)
      |> emit (Event.vTaskDelay (pdMS_TO_TICKS cfg 10))
  else w

/-- Source: `uc8151d_panel_init()`. -/
def uc8151d_panel_init (cfg : Config) (env : Nat → BusyEnv) (w : World) : World :=
  let w := Nat.iterate (uc8151d_reset cfg) 3 w
  let w := uc8151d_spi_send_cmd cfg 0x04 w
  let w := (uc8151d_wait_busy cfg env 0 w).2
  let w := uc8151d_spi_send_cmd cfg 0x00 w
  let w :=
    if cfg.ORIENTATION_PORTRAIT_INVERTED then uc8151d_spi_send_data_byte cfg 0x13 w
    else if cfg.ORIENTATION_PORTRAIT then uc8151d_spi_send_data_byte cfg 0x1f w
    else w
  let w := uc8151d_spi_send_cmd cfg 0x50 w
  uc8151d_spi_send_data_byte cfg 0x97 w

/-- The `len` bytes of memory `buf` starting at offset `ptr`. -/
def read_bytes (buf : Nat → Nat) (ptr len : Nat) : List Nat :=
  (List.range len).map (fun j => buf (ptr + j))

/-- Source: the second loop of `uc8151d_full_update`; `rows` iterations remain and `buf_ptr`
is the offset of the loop's pointer into `buf`. -/
def fill_new_data (cfg : Config) (buf : Nat → Nat) : Nat → Nat → World → World
  | 0, _, w => w
  | rows + 1, buf_ptr, w =>
    fill_new_data cfg buf rows (buf_ptr + EPD_ROW_LEN cfg)
      (uc8151d_spi_send_data cfg (read_bytes buf buf_ptr (EPD_ROW_LEN cfg)) w)

/-- Source: `uc8151d_full_update(buf)`. -/
def uc8151d_full_update (cfg : Config) (env : Nat → BusyEnv) (buf : Nat → Nat) (w : World) :
    World :=
  let w := uc8151d_panel_init cfg env w
  let old_data := List.replicate (EPD_ROW_LEN cfg) 0
  let w := uc8151d_spi_send_cmd cfg 0x10 w
  let w := Nat.iterate (uc8151d_spi_send_data cfg old_data) cfg.EPD_HEIGHT w
  let w := uc8151d_spi_send_cmd cfg 0x13 w
  let w := fill_new_data cfg buf cfg.EPD_HEIGHT 0 w
  let w := uc8151d_spi_send_cmd cfg 0x12 w
  let w := emit (Event.vTaskDelay (pdMS_TO_TICKS cfg 10)) w
  let w := (uc8151d_wait_busy cfg env 0 w).2
  uc8151d_sleep cfg env w

/-- Source: `ESP_ERROR_CHECK(ret)`: the task is stopped unless `ret` is `ESP_OK`. -/
def ESP_ERROR_CHECK (ret : Nat) (w : World) : World :=
  match w.status with
  | Status.running => if ret = ESP_OK then w else { w with status := Status.aborted }
  | _ => w

/-- Source: `uc8151d_init()`. `evts` is what `xEventGroupCreate()` returns (`none` for `NULL`)
and `gpio_config_ret` what `gpio_config` returns. -/
def uc8151d_init (cfg : Config) (env : Nat → BusyEnv) (evts : Option Nat)
    (gpio_config_ret : Nat) (w : World) : World :=
  match evts with
  | none => w
  | some _ =>
    let in_io_conf : gpio_config_t :=
      { intr_type := GPIO_INTR_POSEDGE, mode := GPIO_MODE_INPUT,
        pin_bit_mask := PIN_BUSY_BIT cfg, pull_down_en := 0, pull_up_en := 1 }
    let w := emit (Event.gpio_config in_io_conf) w
    let w := ESP_ERROR_CHECK gpio_config_ret w
    let w := emit (Event.gpio_install_isr_service 0) w
    let w := emit (Event.gpio_isr_handler_add cfg.PIN_BUSY cfg.PIN_BUSY) w
    uc8151d_panel_init cfg env w

/-- The state before the driver has made any call. -/
def World.start : World := { trace := [], group := 0, waits := 0, status := Status.running }

/-- The 200 x 200 panel of the spec's scenarios. -/
def panel200 : Config :=
  { PIN_DC := 19, PIN_RST := 18, PIN_BUSY := 35, USE_RST := true,
    ORIENTATION_PORTRAIT_INVERTED := false, ORIENTATION_PORTRAIT := true,
    EPD_WIDTH := 200, EPD_HEIGHT := 200, configTICK_RATE_HZ := 100,
    INCLUDE_vTaskSuspend := true }

/-- The panel size the source falls back to when the resolution names are undefined. -/
def panel_default : Config :=
  { PIN_DC := 19, PIN_RST := 18, PIN_BUSY := 35, USE_RST := true,
    ORIENTATION_PORTRAIT_INVERTED := false, ORIENTATION_PORTRAIT := true,
    EPD_WIDTH := 256, EPD_HEIGHT := 128, configTICK_RATE_HZ := 100,
    INCLUDE_vTaskSuspend := true }

/-- A 1024 x 1024 panel, whose frame of 131072 bytes exceeds the range of a 16-bit index. -/
def panel1024 : Config :=
  { PIN_DC := 19, PIN_RST := 18, PIN_BUSY := 35, USE_RST := true,
    ORIENTATION_PORTRAIT_INVERTED := false, ORIENTATION_PORTRAIT := true,
    EPD_WIDTH := 1024, EPD_HEIGHT := 1024, configTICK_RATE_HZ := 100,
    INCLUDE_vTaskSuspend := true }

/-- A framebuffer whose bytes are all zero. -/
def blank : Nat → Nat := fun _ => 0

/-- Whether `(x, y)` lies within the panel. -/
def in_bounds (cfg : Config) (x y : Int) : Prop :=
  0 ≤ x ∧ x < (cfg.EPD_WIDTH : Int) ∧ 0 ≤ y ∧ y < (cfg.EPD_HEIGHT : Int)

instance (cfg : Config) (x y : Int) : Decidable (in_bounds cfg x y) := by
  unfold in_bounds; infer_instance

/-- The exact byte offset `(x >> 3) + y * EPD_ROW_LEN` of pixel `(x, y)`, as an integer. -/
def pixel_offset (cfg : Config) (x y : Int) : Int :=
  (x >>> (3 : Nat)) + y * (EPD_ROW_LEN cfg : Int)

/-! ## Vocabulary of the trace claims -/

/-- Events of one command byte: drain the bus, DC low, transfer of the opcode. -/
def command_events (cfg : Config) (cmd : Nat) : List Event :=
  [Event.disp_wait_for_pending_transactions, Event.gpio_set_level cfg.PIN_DC 0,
    Event.disp_spi_send_data XferKind.command [cmd]]

/-- Events of one data transfer: drain the bus, DC high, transfer of the payload. -/
def data_events (cfg : Config) (bytes : List Nat) : List Event :=
  [Event.disp_wait_for_pending_transactions, Event.gpio_set_level cfg.PIN_DC 1,
    Event.disp_spi_send_data XferKind.data bytes]

/-- A busy-wait with no timeout: wait for `EVT_BUSY`, clearing it, for `portMAX_DELAY`. -/
def busy_wait_no_timeout : List Event :=
  [Event.xEventGroupWaitBits EVT_BUSY true true portMAX_DELAY]

/-- Events of one hardware reset: reset pin low, a delay requested as 20 ms, reset pin high, a
delay requested as 10 ms; nothing when no reset pin is in use. -/
def reset_events (cfg : Config) : List Event :=
  if cfg.USE_RST then
    [Event.gpio_set_level cfg.PIN_RST 0, Event.vTaskDelay (pdMS_TO_TICKS cfg 20),
      Event.gpio_set_level cfg.PIN_RST 1, Event.vTaskDelay (pdMS_TO_TICKS cfg 10)]
  else []

/-- The data byte that follows the panel-setting command, if the orientation has one. -/
def orientation_events (cfg : Config) : List Event :=
  if cfg.ORIENTATION_PORTRAIT_INVERTED then data_events cfg [0x13]
  else if cfg.ORIENTATION_PORTRAIT then data_events cfg [0x1f]
  else []

/-- Events of the panel bring-up. -/
def bring_up_events (cfg : Config) : List Event :=
  reset_events cfg ++ reset_events cfg ++ reset_events cfg ++ command_events cfg 0x04 ++
    busy_wait_no_timeout ++ command_events cfg 0x00 ++ orientation_events cfg ++
    command_events cfg 0x50 ++ data_events cfg [0x97]

/-- Events of the sleep sub-sequence, as `uc8151d_sleep` emits them. -/
def sleep_events (cfg : Config) : List Event :=
  command_events cfg 0x50 ++ data_events cfg [0xf7] ++ command_events cfg 0x02 ++
    busy_wait_no_timeout ++ command_events cfg 0x07 ++ data_events cfg [0xa5]

/-- Events of a full update after its bring-up. -/
def update_events (cfg : Config) (buf : Nat → Nat) : List Event :=
  command_events cfg 0x10 ++
    (List.replicate cfg.EPD_HEIGHT
      (data_events cfg (List.replicate (EPD_ROW_LEN cfg) 0))).flatten ++
    command_events cfg 0x13 ++
    ((List.range cfg.EPD_HEIGHT).map
      (fun i => data_events cfg (read_bytes buf (i * EPD_ROW_LEN cfg) (EPD_ROW_LEN cfg)))).flatten ++
    command_events cfg 0x12 ++ [Event.vTaskDelay (pdMS_TO_TICKS cfg 10)] ++
    busy_wait_no_timeout ++ sleep_events cfg

/-- Every wait on `portMAX_DELAY` returns: for each wait the busy interrupt has run or will run,
or the scheduler treats `portMAX_DELAY` as an ordinary timeout. -/
def waits_return (cfg : Config) (env : Nat → BusyEnv) : Prop :=
  ∀ n, (env n).isr_before = true ∨ (env n).isr_after.isSome = true ∨
    cfg.INCLUDE_vTaskSuspend = false

/-- A driver step that keeps the task running, appends exactly `evs` to the trace and performs
`k` waits. -/
def Emits (f : World → World) (evs : List Event) (k : Nat) : Prop :=
  ∀ w, w.status = Status.running →
    (f w).status = Status.running ∧ (f w).trace = w.trace ++ evs ∧ (f w).waits = w.waits + k

/-- The DC level that goes with a kind of transfer. -/
def dc_level : XferKind → Nat
  | XferKind.command => 0
  | XferKind.data => 1

/-- Every bus transfer in the trace is immediately preceded by a set of the DC pin to the level
of its kind, itself immediately preceded by a drain of pending transactions. -/
def dc_discipline (cfg : Config) (t : List Event) : Prop :=
  ∀ i kind bytes, t[i]? = some (Event.disp_spi_send_data kind bytes) →
    ∃ j, i = j + 2 ∧ t[j]? = some Event.disp_wait_for_pending_transactions ∧
      t[j + 1]? = some (Event.gpio_set_level cfg.PIN_DC (dc_level kind))

/-- A driver step that only appends events, and whose appended events keep the DC discipline
among themselves. -/
def Disciplined (cfg : Config) (f : World → World) : Prop :=
  ∀ w, ∃ evs, (f w).trace = w.trace ++ evs ∧ dc_discipline cfg evs

/-- A busy line on which the interrupt runs one tick after every wait is entered. -/
def env_prompt : Nat → BusyEnv := fun _ => { isr_before := false, isr_after := some 1 }

/-- A busy line on which the interrupt never runs. -/
def env_silent : Nat → BusyEnv := fun _ => { isr_before := false, isr_after := none }

/-- A framebuffer whose byte at offset `i` is `i % 256`. -/
def ramp : Nat → Nat := fun i => i % 256

/-- The busy bit is set before a wait of `ticks` ticks elapses: it is set when the wait is
entered, or the interrupt runs within the wait. -/
def busy_in_time (cfg : Config) (group : Nat) (isr_after : Option Nat) (ticks : Nat) : Prop :=
  group &&& EVT_BUSY = EVT_BUSY ∨
    ∃ k, isr_after = some k ∧ (waits_forever cfg ticks = true ∨ k < ticks)

/-! ## Display helpers (`lvgl_helpers.c`) -/

/-- Source: `lv_disp_drv_t`, the two fields the helpers read; both are `lv_coord_t`. -/
structure lv_disp_drv_t where
  hor_res : Int
  ver_res : Int
  deriving DecidableEq, Repr

/-- The display controller selected at build time, one constructor per
`CONFIG_LV_TFT_DISPLAY_CONTROLLER_*` name tested by `lvgl_get_display_buffer_size`. -/
inductive DisplayController where
  | ST7789 | ST7735S | ST7796S | HX8357 | ILI9481 | ILI9486 | ILI9488 | ILI9341 | FT81X
  | RA8875 | GC9A01 | ILI9163C | SH1107 | SSD1306 | IL3820 | JD79653A | UC8151D | PCD8544
  /-- No controller name is defined. -/
  | unselected
  deriving DecidableEq, Repr

/-- Build-time configuration read by `lvgl_helpers.c`. -/
structure HelpersConfig where
  /-- Value of `CONFIG_CUSTOM_DISPLAY_BUFFER_BYTES` when `CONFIG_CUSTOM_DISPLAY_BUFFER_SIZE`
  is defined. -/
  CUSTOM_DISPLAY_BUFFER_BYTES : Option Int
  /-- The controller whose name is defined. -/
  controller : DisplayController
  /-- Whether `CONFIG_LV_THEME_MONO` is defined. -/
  THEME_MONO : Bool
  /-- Value of `IL3820_COLUMNS`. -/
  IL3820_COLUMNS : Int
  /-- Value of `LVGL_VERSION_MAJOR`. -/
  LVGL_VERSION_MAJOR : Nat
  /-- Value of `LV_HOR_RES_MAX`. -/
  LV_HOR_RES_MAX : Int
  /-- Value of `LV_VER_RES_MAX`. -/
  LV_VER_RES_MAX : Int
  /-- Value of `SPI_HOST_MAX` when that name is defined for the preprocessor. -/
  SPI_HOST_MAX : Option Int
  deriving DecidableEq, Repr

/-- Source: `get_display_hor_res(drv)`. -/
def get_display_hor_res (hc : HelpersConfig) (drv : lv_disp_drv_t) : Int :=
  if hc.LVGL_VERSION_MAJOR ≥ 8 then to_lv_coord drv.hor_res
  else to_lv_coord hc.LV_HOR_RES_MAX

/-- Source: `get_display_ver_res(drv)`. -/
def get_display_ver_res (hc : HelpersConfig) (drv : lv_disp_drv_t) : Int :=
  if hc.LVGL_VERSION_MAJOR ≥ 8 then to_lv_coord drv.ver_res
  else to_lv_coord hc.LV_VER_RES_MAX

/-- A C `int` value stored into a 32-bit `size_t`. -/
def to_size_t (v : Int) : Nat := (v % 4294967296).toNat

/-- Whether the controller is one of the twelve that share the first branch of
`lvgl_get_display_buffer_size`. -/
def forty_line_controller : DisplayController → Bool
  | DisplayController.ST7789 | DisplayController.ST7735S | DisplayController.ST7796S
  | DisplayController.HX8357 | DisplayController.ILI9481 | DisplayController.ILI9486
  | DisplayController.ILI9488 | DisplayController.ILI9341 | DisplayController.FT81X
  | DisplayController.RA8875 | DisplayController.GC9A01 | DisplayController.ILI9163C => true
  | _ => false

/-- Source: `lvgl_get_display_buffer_size(drv)`. The products and quotients are C `int`
arithmetic on `lv_coord_t` operands (no overflow is possible) and the result is stored into a
`size_t`. The result is `none` where the selected branch does not compile: the non-mono SSD1306
line has an unbalanced parenthesis, and without a controller the source stops the build. -/
def lvgl_get_display_buffer_size (hc : HelpersConfig) (drv : lv_disp_drv_t) : Option Nat :=
  match hc.CUSTOM_DISPLAY_BUFFER_BYTES with
  | some bytes => some (to_size_t bytes)
  | none =>
    if forty_line_controller hc.controller then
      some (to_size_t (get_display_hor_res hc drv * 40))
    else
      match hc.controller with
      | DisplayController.SH1107 =>
        some (to_size_t (get_display_hor_res hc drv * get_display_ver_res hc drv))
      | DisplayController.SSD1306 =>
        if hc.THEME_MONO then
          some (to_size_t (get_display_hor_res hc drv * Int.tdiv (get_display_ver_res hc drv) 8))
        else none
      | DisplayController.IL3820 =>
        some (to_size_t (get_display_ver_res hc drv * hc.IL3820_COLUMNS))
      | DisplayController.JD79653A =>
        some (to_size_t
          (Int.tdiv (get_display_ver_res hc drv * get_display_ver_res hc drv) 8))
      | DisplayController.UC8151D =>
        some (to_size_t
          (Int.tdiv (get_display_ver_res hc drv * get_display_ver_res hc drv) 8))
      | DisplayController.PCD8544 =>
        some (to_size_t (get_display_hor_res hc drv * Int.tdiv (get_display_ver_res hc drv) 8))
      | _ => none

/-- ESP-IDF `spi_host_device_t` value `SPI1_HOST`. -/
def SPI1_HOST : Int := 0

/-- ESP-IDF `spi_host_device_t` value `SPI2_HOST`. -/
def SPI2_HOST : Int := 1

/-- ESP-IDF `spi_host_device_t` value `SPI3_HOST`. -/
def SPI3_HOST : Int := 2

/-- Source: the local table `spi_names` of `lvgl_spi_driver_init`. -/
def spi_names : List String := ["SPI1_HOST", "SPI2_HOST", "SPI3_HOST"]

/-- How a call of `lvgl_spi_driver_init` ends. -/
inductive SpiInitOutcome where
  /-- An `assert` failed: the call does not return. -/
  | assertion_failed
  /-- The call returned `result`, after logging the entry `name` of `spi_names` (`none` when
  the index it read lies outside the table). -/
  | returned (result : Bool) (name : Option String)
  deriving DecidableEq, Repr

/-- Source: `lvgl_spi_driver_init(host, miso_pin, mosi_pin, sclk_pin, max_transfer_sz,
dma_channel, quadwp_pin, quadhd_pin)`, with `assert` as the C library defines it when `NDEBUG`
is not set. The pins, transfer size and DMA channel are only logged and handed on to
`spi_bus_initialize`, whose return value is `ret`. -/
def lvgl_spi_driver_init (hc : HelpersConfig) (host : Int) (ret : Int) : SpiInitOutcome :=
  let host_ok : Bool :=
    match hc.SPI_HOST_MAX with
    | some host_max => decide (SPI1_HOST ≤ host) && decide (host_max > host)
    | none => decide (SPI1_HOST ≤ host) && decide (SPI3_HOST + 1 > host)
  if host_ok then
    let name := if 0 ≤ host then spi_names[host.toNat]? else none
    if ret = (ESP_OK : Int) then SpiInitOutcome.returned (decide ((ESP_OK : Int) ≠ ret)) name
    else SpiInitOutcome.assertion_failed
  else SpiInitOutcome.assertion_failed

/-- The UC8151D build of the helpers, with no custom buffer size, for LVGL 8. -/
def helpers_uc8151d : HelpersConfig :=
  { CUSTOM_DISPLAY_BUFFER_BYTES := none, controller := DisplayController.UC8151D,
    THEME_MONO := true, IL3820_COLUMNS := 16, LVGL_VERSION_MAJOR := 8,
    LV_HOR_RES_MAX := 200, LV_VER_RES_MAX := 200, SPI_HOST_MAX := none }

/-- A 128 x 256 panel, taller than it is wide. -/
def panel_tall : Config :=
  { PIN_DC := 19, PIN_RST := 18, PIN_BUSY := 35, USE_RST := true,
    ORIENTATION_PORTRAIT_INVERTED := false, ORIENTATION_PORTRAIT := true,
    EPD_WIDTH := 128, EPD_HEIGHT := 256, configTICK_RATE_HZ := 100,
    INCLUDE_vTaskSuspend := true }

/-- The sleep sub-sequence as claim C11 words it, with VCOM data byte 0x97. -/
def sleep_events_claimed (cfg : Config) : List Event :=
  command_events cfg 0x50 ++ data_events cfg [0x97] ++ command_events cfg 0x02 ++
    busy_wait_no_timeout ++ command_events cfg 0x07 ++ data_events cfg [0xa5]

/-- A 150 x 150 panel: square, with a side that is not a multiple of 8. -/
def panel150 : Config :=
  { PIN_DC := 19, PIN_RST := 18, PIN_BUSY := 35, USE_RST := true,
    ORIENTATION_PORTRAIT_INVERTED := false, ORIENTATION_PORTRAIT := true,
    EPD_WIDTH := 150, EPD_HEIGHT := 150, configTICK_RATE_HZ := 100,
    INCLUDE_vTaskSuspend := true }

/-! ## Bit-level facts about `BIT_SET` and `BIT_CLEAR` -/

theorem testBit_BIT_SET (a b k : Nat) (hk : k < 8) :
    (BIT_SET a b).testBit k = (a.testBit k || decide (b = k)) := by
  have h256 : (256 : Nat) = 2 ^ 8 := by norm_num
  have h32 : (4294967296 : Nat) = 2 ^ 32 := by norm_num
  have hk32 : k < 32 := by omega
  unfold BIT_SET
  rw [h256, h32, Nat.testBit_mod_two_pow, Nat.testBit_or, Nat.testBit_mod_two_pow,
    Nat.one_shiftLeft, Nat.testBit_two_pow]
  simp [hk, hk32]

theorem testBit_BIT_CLEAR (a b k : Nat) (hb : b < 8) (hk : k < 8) :
    (BIT_CLEAR a b).testBit k = (a.testBit k && !decide (b = k)) := by
  have h256 : (256 : Nat) = 2 ^ 8 := by norm_num
  have hk32 : k < 32 := by omega
  have hlt : 2 ^ b < 2 ^ 32 := Nat.pow_lt_pow_right (by norm_num) (by omega)
  have hmod : (1 <<< b) % 4294967296 = 2 ^ b := by
    rw [Nat.one_shiftLeft]
    exact Nat.mod_eq_of_lt (by simpa using hlt)
  have hmask : 4294967295 - 2 ^ b = 2 ^ 32 - (2 ^ b + 1) := by
    have : (2 : Nat) ^ 32 = 4294967296 := by norm_num
    omega
  unfold BIT_CLEAR
  rw [hmod, hmask, h256, Nat.testBit_mod_two_pow, Nat.testBit_and,
    Nat.testBit_two_pow_sub_succ hlt, Nat.testBit_two_pow]
  simp [hk, hk32]

theorem BIT_SET_lt (a b : Nat) : BIT_SET a b < 256 := Nat.mod_lt _ (by norm_num)

theorem BIT_CLEAR_lt (a b : Nat) : BIT_CLEAR a b < 256 := Nat.mod_lt _ (by norm_num)

theorem pixel_offset_nonneg (cfg : Config) (x y : Int) (hx : 0 ≤ x) (hy : 0 ≤ y) :
    0 ≤ pixel_offset cfg x y := by
  have h1 : 0 ≤ x >>> (3 : Nat) := by
    rw [Int.shiftRight_eq_div_pow]; positivity
  have h2 : 0 ≤ y * (EPD_ROW_LEN cfg : Int) := by positivity
  unfold pixel_offset
  omega

/-- The value stored in `byte_index` equals the exact offset whenever that offset fits 16 bits. -/
theorem byte_index_exact (cfg : Config) (x y : Int) (hx : 0 ≤ x) (hy : 0 ≤ y)
    (hfit : pixel_offset cfg x y < 65536) :
    byte_index cfg x y = (pixel_offset cfg x y).toNat := by
  have h0 := pixel_offset_nonneg cfg x y hx hy
  unfold byte_index
  unfold pixel_offset at h0 hfit ⊢
  rw [Int.emod_eq_of_lt h0 (by omega), Int.emod_eq_of_lt h0 hfit]

/-- In natural numbers the exact offset of pixel `(a, b)` is `a / 8 + b * EPD_ROW_LEN`. -/
theorem pixel_offset_natCast (cfg : Config) (a b : Nat) :
    pixel_offset cfg (a : Int) (b : Int) = ((a / 8 + b * EPD_ROW_LEN cfg : Nat) : Int) := by
  unfold pixel_offset
  rw [Int.shiftRight_eq_div_pow]
  push_cast
  norm_num

theorem bit_position_lt (x : Int) : 7 - bit_index x < 8 := by omega

/-- The write of `uc8151d_lv_set_fb_cb` touches no byte but the one at `byte_index`. -/
theorem set_fb_other_bytes (cfg : Config) (buf : Nat → Nat) (x y : Int) (c i : Nat)
    (hi : i ≠ byte_index cfg x y) : uc8151d_lv_set_fb_cb cfg buf x y c i = buf i := by
  unfold uc8151d_lv_set_fb_cb
  split <;> exact Function.update_noteq hi _ _

/-- Bits of the byte at `byte_index` after the write of `uc8151d_lv_set_fb_cb`. -/
theorem set_fb_addressed_byte (cfg : Config) (buf : Nat → Nat) (x y : Int) (c k : Nat)
    (hk : k < 8) :
    (uc8151d_lv_set_fb_cb cfg buf x y c (byte_index cfg x y)).testBit k
      = if k = 7 - bit_index x then decide (c ≠ 0)
        else (buf (byte_index cfg x y)).testBit k := by
  have hp := bit_position_lt x
  unfold uc8151d_lv_set_fb_cb
  by_cases hc : c = 0
  · simp only [hc, ne_eq, not_true_eq_false, if_false, Function.update_same]
    rw [testBit_BIT_CLEAR _ _ _ hp hk]
    by_cases hkp : k = 7 - bit_index x
    · simp [hkp]
    · have : ¬ (7 - bit_index x = k) := fun h => hkp h.symm
      simp [hkp, this]
  · simp only [ne_eq, hc, not_false_eq_true, if_true, Function.update_same]
    rw [testBit_BIT_SET _ _ _ hk]
    by_cases hkp : k = 7 - bit_index x
    · simp [hkp]
    · have : ¬ (7 - bit_index x = k) := fun h => hkp h.symm
      simp [hkp, this]

/-! ## Framebuffer adapter: claims C2 to C5 -/

/-- C2 (as stated, refuted): on a 1024 x 1024 panel the in-bounds pixel `(0, 512)` has offset
65536, the 16-bit `byte_index` wraps to 0, and the bit read back at `(0, 512)` after writing a
non-zero colour is still 0. -/
theorem read_back_fails_on_wrap :
    ¬ (∀ (cfg : Config) (buf : Nat → Nat) (x y : Int) (c : Nat), in_bounds cfg x y →
        read_pixel cfg (uc8151d_lv_set_fb_cb cfg buf x y c) x y = decide (c ≠ 0)) := by
  intro h
  have h1 := h panel1024 blank 0 512 1 (by decide)
  revert h1
  decide

/-- C2 (amended): for every buffer and every in-bounds `(x, y)` whose offset
`(x >> 3) + y * EPD_ROW_LEN` is below 65536, the bit read back at `(x, y)` after
`uc8151d_lv_set_fb_cb` wrote a colour there is 1 if `color.full` was non-zero and 0 if it was
zero, whatever the bit held before. -/
theorem set_fb_read_back (cfg : Config) (buf : Nat → Nat) (x y : Int) (c : Nat)
    (hin : in_bounds cfg x y) (hfit : pixel_offset cfg x y < 65536) :
    read_pixel cfg (uc8151d_lv_set_fb_cb cfg buf x y c) x y = decide (c ≠ 0) := by
  obtain ⟨hx, -, hy, -⟩ := hin
  have hidx := byte_index_exact cfg x y hx hy hfit
  have hread : read_pixel cfg (uc8151d_lv_set_fb_cb cfg buf x y c) x y
      = (uc8151d_lv_set_fb_cb cfg buf x y c (pixel_offset cfg x y).toNat).testBit
          (7 - bit_index x) := rfl
  rw [hread, ← hidx]
  have := set_fb_addressed_byte cfg buf x y c (7 - bit_index x) (bit_position_lt x)
  simpa [bit_index] using this

/-- Instance of `set_fb_read_back`: pixel `(9, 0)` of the 200 x 200 panel, colour on. -/
theorem set_fb_read_back_witness :
    in_bounds panel200 9 0 ∧ pixel_offset panel200 9 0 < 65536 ∧
      read_pixel panel200 (uc8151d_lv_set_fb_cb panel200 blank 9 0 1) 9 0 = decide (1 ≠ 0) :=
  ⟨by decide, by decide, set_fb_read_back panel200 blank 9 0 1 (by decide) (by decide)⟩

/-- Two in-bounds pixels with the same byte and the same bit position are the same pixel, on a
panel whose rows hold every column and whose frame fits the 16-bit index. -/
theorem pixel_address_injective (cfg : Config) (x y x2 y2 : Int)
    (hrow : cfg.EPD_WIDTH ≤ 8 * EPD_ROW_LEN cfg)
    (hin : in_bounds cfg x y) (hin2 : in_bounds cfg x2 y2)
    (hbyte : pixel_offset cfg x y = pixel_offset cfg x2 y2)
    (hbit : 7 - bit_index x = 7 - bit_index x2) : x = x2 ∧ y = y2 := by
  obtain ⟨hx, hxw, hy, hyh⟩ := hin
  obtain ⟨hx2, hxw2, hy2, hyh2⟩ := hin2
  lift x to ℕ using hx
  lift y to ℕ using hy
  lift x2 to ℕ using hx2
  lift y2 to ℕ using hy2
  have hb : x / 8 + y * EPD_ROW_LEN cfg = x2 / 8 + y2 * EPD_ROW_LEN cfg := by
    rw [pixel_offset_natCast, pixel_offset_natCast] at hbyte
    exact_mod_cast hbyte
  have hq : x / 8 < EPD_ROW_LEN cfg := by omega
  have hq2 : x2 / 8 < EPD_ROW_LEN cfg := by omega
  have hR : 0 < EPD_ROW_LEN cfg := by omega
  have hyy : y = y2 := by
    have h1 : (x / 8 + y * EPD_ROW_LEN cfg) / EPD_ROW_LEN cfg = y := by
      rw [Nat.add_mul_div_right _ _ hR, Nat.div_eq_of_lt hq, Nat.zero_add]
    have h2 : (x2 / 8 + y2 * EPD_ROW_LEN cfg) / EPD_ROW_LEN cfg = y2 := by
      rw [Nat.add_mul_div_right _ _ hR, Nat.div_eq_of_lt hq2, Nat.zero_add]
    rw [← h1, ← h2, hb]
  subst hyy
  have hqq : x / 8 = x2 / 8 := by omega
  have hr : x % 8 = x2 % 8 := by
    have e1 : bit_index (x : Int) = x % 8 := by
      unfold bit_index; omega
    have e2 : bit_index (x2 : Int) = x2 % 8 := by
      unfold bit_index; omega
    rw [e1, e2] at hbit
    omega
  constructor
  · have : x = x2 := by omega
    exact_mod_cast this
  · rfl

/-- C3 (as stated, refuted): on the 256 x 128 panel the distinct in-bounds pixels `(128, 0)`
and `(0, 1)` share byte 16 and bit 7, so a write at `(128, 0)` changes the bit read back at
`(0, 1)`. -/
theorem set_fb_perturbs_other_pixel :
    in_bounds panel_default 128 0 ∧ in_bounds panel_default 0 1 ∧
      ((128 : Int), (0 : Int)) ≠ (0, 1) ∧
      (byte_index panel_default 128 0, 7 - bit_index 128)
        = (byte_index panel_default 0 1, 7 - bit_index 0) ∧
      read_pixel panel_default blank 0 1 = false ∧
      read_pixel panel_default (uc8151d_lv_set_fb_cb panel_default blank 128 0 1) 0 1 = true := by
  decide

/-- C3 (amended): on every panel with `EPD_WIDTH ≤ 8 * EPD_ROW_LEN` and
`EPD_HEIGHT * EPD_ROW_LEN ≤ 65536`, for every buffer and every two distinct in-bounds
coordinates, a write at `(x, y)` with either colour leaves the bit read back for `(x2, y2)`
unchanged; the two coordinates have distinct (byte index, bit index) pairs, and every byte other
than the addressed one is unchanged. -/
theorem set_fb_frame (cfg : Config) (buf : Nat → Nat) (x y x2 y2 : Int) (c : Nat)
    (hrow : cfg.EPD_WIDTH ≤ 8 * EPD_ROW_LEN cfg)
    (hframe : cfg.EPD_HEIGHT * EPD_ROW_LEN cfg ≤ 65536)
    (hin : in_bounds cfg x y) (hin2 : in_bounds cfg x2 y2) (hne : (x, y) ≠ (x2, y2)) :
    read_pixel cfg (uc8151d_lv_set_fb_cb cfg buf x y c) x2 y2 = read_pixel cfg buf x2 y2 ∧
      (byte_index cfg x y, 7 - bit_index x) ≠ (byte_index cfg x2 y2, 7 - bit_index x2) ∧
      ∀ i, i ≠ byte_index cfg x y → uc8151d_lv_set_fb_cb cfg buf x y c i = buf i := by
  have fit : ∀ u v : Int, in_bounds cfg u v → pixel_offset cfg u v < 65536 := by
    intro u v ⟨hu, huw, hv, hvh⟩
    lift u to ℕ using hu
    lift v to ℕ using hv
    have hq : u / 8 < EPD_ROW_LEN cfg := by omega
    have hv1 : v + 1 ≤ cfg.EPD_HEIGHT := by omega
    have hmul : (v + 1) * EPD_ROW_LEN cfg ≤ cfg.EPD_HEIGHT * EPD_ROW_LEN cfg :=
      Nat.mul_le_mul_right _ hv1
    have hnat : u / 8 + v * EPD_ROW_LEN cfg < 65536 := by
      rw [Nat.add_mul, Nat.one_mul] at hmul
      omega
    rw [pixel_offset_natCast]
    exact_mod_cast hnat
  have hi1 := byte_index_exact cfg x y hin.1 hin.2.2.1 (fit x y hin)
  have hi2 := byte_index_exact cfg x2 y2 hin2.1 hin2.2.2.1 (fit x2 y2 hin2)
  have hpair : (byte_index cfg x y, 7 - bit_index x)
      ≠ (byte_index cfg x2 y2, 7 - bit_index x2) := by
    intro heq
    have hb : byte_index cfg x y = byte_index cfg x2 y2 := congrArg Prod.fst heq
    have hbit : 7 - bit_index x = 7 - bit_index x2 := congrArg Prod.snd heq
    have hoff : pixel_offset cfg x y = pixel_offset cfg x2 y2 := by
      have p1 := pixel_offset_nonneg cfg x y hin.1 hin.2.2.1
      have p2 := pixel_offset_nonneg cfg x2 y2 hin2.1 hin2.2.2.1
      rw [hi1, hi2] at hb
      rw [← Int.toNat_of_nonneg p1, ← Int.toNat_of_nonneg p2, hb]
    obtain ⟨e1, e2⟩ := pixel_address_injective cfg x y x2 y2 hrow hin hin2 hoff hbit
    exact hne (by rw [e1, e2])
  refine ⟨?_, hpair, fun i hi => set_fb_other_bytes cfg buf x y c i hi⟩
  have hread : ∀ b : Nat → Nat, read_pixel cfg b x2 y2
      = (b (pixel_offset cfg x2 y2).toNat).testBit (7 - bit_index x2) := fun _ => rfl
  rw [hread, hread, ← hi2]
  by_cases hb : byte_index cfg x2 y2 = byte_index cfg x y
  · rw [hb]
    have hk := set_fb_addressed_byte cfg buf x y c (7 - bit_index x2) (bit_position_lt x2)
    have hbit : ¬ (7 - bit_index x2 = 7 - bit_index x) := by
      intro hbit
      exact hpair (by rw [hb, hbit])
    rw [if_neg hbit] at hk
    exact hk
  · rw [set_fb_other_bytes cfg buf x y c _ hb]

/-- Instance of `set_fb_frame`: a write at `(9, 0)` on the 200 x 200 panel and the pixel `(10,
0)`. -/
theorem set_fb_frame_witness :
    panel200.EPD_WIDTH ≤ 8 * EPD_ROW_LEN panel200 ∧
      panel200.EPD_HEIGHT * EPD_ROW_LEN panel200 ≤ 65536 ∧
      in_bounds panel200 9 0 ∧ in_bounds panel200 10 0 ∧ ((9 : Int), (0 : Int)) ≠ (10, 0) ∧
      (read_pixel panel200 (uc8151d_lv_set_fb_cb panel200 blank 9 0 1) 10 0
          = read_pixel panel200 blank 10 0 ∧
        (byte_index panel200 9 0, 7 - bit_index 9) ≠ (byte_index panel200 10 0, 7 - bit_index 10) ∧
        ∀ i, i ≠ byte_index panel200 9 0 →
          uc8151d_lv_set_fb_cb panel200 blank 9 0 1 i = blank i) :=
  ⟨by decide, by decide, by decide, by decide, by decide,
    set_fb_frame panel200 blank 9 0 10 0 1 (by decide) (by decide) (by decide) (by decide)
      (by decide)⟩

/-- C4 (as stated, refuted): on a 1024 x 1024 panel the in-bounds pixel `(0, 512)` has offset
65536, which the 16-bit `byte_index` stores as 0: the write sets bit 7 of byte 0 and leaves the
byte at offset 65536 as it was. -/
theorem byte_index_loses_offset :
    in_bounds panel1024 0 512 ∧ pixel_offset panel1024 0 512 = 65536 ∧
      byte_index panel1024 0 512 = 0 ∧
      uc8151d_lv_set_fb_cb panel1024 blank 0 512 1 0 = 128 ∧
      uc8151d_lv_set_fb_cb panel1024 blank 0 512 1 65536 = 0 := by
  decide

/-- C4 (amended): for every in-bounds `(x, y)` whose offset `(x >> 3) + y * row_length` is below
65536, `byte_index` holds that offset without loss and `uc8151d_lv_set_fb_cb` sets (colour
non-zero) or clears (colour zero) exactly bit `7 - (x & 7)` of that byte: the byte's other bits
and every other byte are unchanged. With `row_length = 25`, `x = 9`, `y = 0` and colour on, the
write is `BIT_SET` of bit 6 in byte 1. -/
theorem set_fb_exact_bit (cfg : Config) (buf : Nat → Nat) (x y : Int) (c : Nat)
    (hin : in_bounds cfg x y) (hfit : pixel_offset cfg x y < 65536) :
    (byte_index cfg x y : Int) = pixel_offset cfg x y ∧
      7 - bit_index x = 7 - (x % 8).toNat ∧
      (∀ k, k < 8 →
        (uc8151d_lv_set_fb_cb cfg buf x y c (byte_index cfg x y)).testBit k
          = if k = 7 - bit_index x then decide (c ≠ 0)
            else (buf (byte_index cfg x y)).testBit k) ∧
      uc8151d_lv_set_fb_cb cfg buf x y c (byte_index cfg x y) < 256 ∧
      (∀ i, i ≠ byte_index cfg x y → uc8151d_lv_set_fb_cb cfg buf x y c i = buf i) ∧
      (EPD_ROW_LEN cfg = 25 → x = 9 → y = 0 → c ≠ 0 →
        uc8151d_lv_set_fb_cb cfg buf x y c = Function.update buf 1 (BIT_SET (buf 1) 6)) := by
  have hidx := byte_index_exact cfg x y hin.1 hin.2.2.1 hfit
  have hnn := pixel_offset_nonneg cfg x y hin.1 hin.2.2.1
  refine ⟨?_, rfl, fun k hk => set_fb_addressed_byte cfg buf x y c k hk, ?_,
    fun i hi => set_fb_other_bytes cfg buf x y c i hi, ?_⟩
  · rw [hidx, Int.toNat_of_nonneg hnn]
  · unfold uc8151d_lv_set_fb_cb
    split
    · rw [Function.update_same]; exact BIT_SET_lt _ _
    · rw [Function.update_same]; exact BIT_CLEAR_lt _ _
  · intro hrow hx hy hc
    subst hx hy
    have hb : byte_index cfg 9 0 = 1 := by
      unfold byte_index
      rw [hrow]
      decide
    have hbit : 7 - bit_index 9 = 6 := by decide
    unfold uc8151d_lv_set_fb_cb
    rw [if_pos hc, hb, hbit]

/-- Instance of `set_fb_exact_bit`: with `row_length = 25`, `x = 9`, `y = 0` and colour on, byte 1
of a blank buffer becomes 64 (bit 6) and nothing else changes. -/
theorem set_fb_exact_bit_witness :
    in_bounds panel200 9 0 ∧ pixel_offset panel200 9 0 < 65536 ∧
      uc8151d_lv_set_fb_cb panel200 blank 9 0 1 = Function.update blank 1 (BIT_SET (blank 1) 6) ∧
      BIT_SET (blank 1) 6 = 64 :=
  ⟨by decide, by decide,
    (set_fb_exact_bit panel200 blank 9 0 1 (by decide) (by decide)).2.2.2.2.2
      (by decide) rfl rfl (by decide),
    by decide⟩

/-- C5: for every input area `uc8151d_lv_rounder_cb` leaves `x1 = 0`, `y1 = 0`,
`x2 = (lv_coord_t)(EPD_WIDTH - 1)` and `y2 = (lv_coord_t)(EPD_HEIGHT - 1)`, which are
`EPD_WIDTH - 1` and `EPD_HEIGHT - 1` for every resolution that an `lv_coord_t` can hold; the
result does not depend on the input area, and applying the rounder twice gives what applying
it once gives. -/
theorem rounder_full_panel (cfg : Config) (area other : lv_area_t) :
    uc8151d_lv_rounder_cb cfg area
        = { x1 := 0, y1 := 0, x2 := to_lv_coord ((cfg.EPD_WIDTH : Int) - 1),
            y2 := to_lv_coord ((cfg.EPD_HEIGHT : Int) - 1) } ∧
      (cfg.EPD_WIDTH ≤ 32768 →
        (uc8151d_lv_rounder_cb cfg area).x2 = (cfg.EPD_WIDTH : Int) - 1) ∧
      (cfg.EPD_HEIGHT ≤ 32768 →
        (uc8151d_lv_rounder_cb cfg area).y2 = (cfg.EPD_HEIGHT : Int) - 1) ∧
      uc8151d_lv_rounder_cb cfg area = uc8151d_lv_rounder_cb cfg other ∧
      uc8151d_lv_rounder_cb cfg (uc8151d_lv_rounder_cb cfg area)
        = uc8151d_lv_rounder_cb cfg area := by
  refine ⟨rfl, ?_, ?_, rfl, rfl⟩
  · intro h
    show to_lv_coord _ = _
    unfold to_lv_coord
    omega
  · intro h
    show to_lv_coord _ = _
    unfold to_lv_coord
    omega

/-- Instance of `rounder_full_panel`: on the 200 x 200 panel the area becomes `(0, 0, 199, 199)`. -/
theorem rounder_full_panel_witness :
    panel200.EPD_WIDTH ≤ 32768 ∧ panel200.EPD_HEIGHT ≤ 32768 ∧
      (uc8151d_lv_rounder_cb panel200 { x1 := 3, y1 := 4, x2 := 50, y2 := 60 }).x2
        = (panel200.EPD_WIDTH : Int) - 1 ∧
      (uc8151d_lv_rounder_cb panel200 { x1 := 3, y1 := 4, x2 := 50, y2 := 60 }).y2
        = (panel200.EPD_HEIGHT : Int) - 1 :=
  ⟨by decide, by decide,
    (rounder_full_panel panel200 { x1 := 3, y1 := 4, x2 := 50, y2 := 60 }
      { x1 := 0, y1 := 0, x2 := 0, y2 := 0 }).2.1 (by decide),
    (rounder_full_panel panel200 { x1 := 3, y1 := 4, x2 := 50, y2 := 60 }
      { x1 := 0, y1 := 0, x2 := 0, y2 := 0 }).2.2.1 (by decide)⟩

/-! ## Traces of the transport and of the panel driver -/

theorem Emits.seq {f g : World → World} {l1 l2 : List Event} {k1 k2 : Nat}
    (hf : Emits f l1 k1) (hg : Emits g l2 k2) :
    Emits (fun w => g (f w)) (l1 ++ l2) (k1 + k2) := by
  intro w hw
  obtain ⟨s1, t1, n1⟩ := hf w hw
  obtain ⟨s2, t2, n2⟩ := hg (f w) s1
  refine ⟨s2, ?_, ?_⟩
  · rw [t2, t1, List.append_assoc]
  · rw [n2, n1, Nat.add_assoc]

theorem emits_nothing : Emits (fun w => w) [] 0 := by
  intro w hw
  exact ⟨hw, (List.append_nil _).symm, rfl⟩

theorem emits_emit (e : Event) : Emits (emit e) [e] 0 := by
  intro w hw
  simp [emit, hw]

theorem emits_send_cmd (cfg : Config) (cmd : Nat) :
    Emits (uc8151d_spi_send_cmd cfg cmd) (command_events cfg cmd) 0 :=
  ((emits_emit _).seq (emits_emit _)).seq (emits_emit _)

theorem emits_send_data (cfg : Config) (data : List Nat) :
    Emits (uc8151d_spi_send_data cfg data) (data_events cfg data) 0 :=
  ((emits_emit _).seq (emits_emit _)).seq (emits_emit _)

theorem emits_send_data_byte (cfg : Config) (data : Nat) :
    Emits (uc8151d_spi_send_data_byte cfg data) (data_events cfg [data]) 0 :=
  ((emits_emit _).seq (emits_emit _)).seq (emits_emit _)

theorem emits_iterate {f : World → World} {l : List Event} {k : Nat} (hf : Emits f l k)
    (n : Nat) : Emits (Nat.iterate f n) (List.replicate n l).flatten (n * k) := by
  induction n with
  | zero =>
    intro w hw
    simpa using hw
  | succ n ih =>
    intro w hw
    obtain ⟨s1, t1, n1⟩ := hf w hw
    obtain ⟨s2, t2, n2⟩ := ih (f w) s1
    refine ⟨s2, ?_, ?_⟩
    · show (Nat.iterate f n (f w)).trace = _
      rw [t2, t1, List.replicate_succ, List.flatten_cons, List.append_assoc]
    · show (Nat.iterate f n (f w)).waits = _
      rw [n2, n1, Nat.succ_mul]
      omega

theorem emits_reset (cfg : Config) : Emits (uc8151d_reset cfg) (reset_events cfg) 0 := by
  unfold uc8151d_reset reset_events
  cases cfg.USE_RST
  · exact emits_nothing
  · exact (((emits_emit _).seq (emits_emit _)).seq (emits_emit _)).seq (emits_emit _)

theorem or_and_self_right (g m : Nat) : (g ||| m) &&& m = m := by
  apply Nat.eq_of_testBit_eq
  intro i
  rw [Nat.testBit_and, Nat.testBit_or]
  cases g.testBit i <;> cases m.testBit i <;> rfl

theorem wait_forever_returns (cfg : Config) (group : Nat) (isr_after : Option Nat)
    (h : group &&& EVT_BUSY = EVT_BUSY ∨ isr_after.isSome = true ∨
      cfg.INCLUDE_vTaskSuspend = false) :
    (xEventGroupWaitBits cfg group isr_after EVT_BUSY true true portMAX_DELAY).isSome = true := by
  unfold xEventGroupWaitBits
  by_cases hc : wait_condition group EVT_BUSY true = true
  · simp [hc]
  · have hg : ¬ (group &&& EVT_BUSY = EVT_BUSY) := by
      simpa [wait_condition] using hc
    have hset : wait_condition (group ||| EVT_BUSY) EVT_BUSY true = true := by
      simp [wait_condition, or_and_self_right]
    rcases h with h | h | h
    · exact absurd h hg
    · obtain ⟨k, rfl⟩ := Option.isSome_iff_exists.mp h
      simp only [hc, hset]
      split_ifs <;> simp
    · have hf : waits_forever cfg portMAX_DELAY = false := by simp [waits_forever, h]
      cases isr_after
      · simp [hc, hf]
      · simp only [hc, hset, hf]
        split_ifs <;> simp

theorem emits_wait_busy (cfg : Config) (env : Nat → BusyEnv) (henv : waits_return cfg env) :
    Emits (fun w => (uc8151d_wait_busy cfg env 0 w).2) busy_wait_no_timeout 1 := by
  intro w hw
  have hsome := wait_forever_returns cfg (group_at_wait env w) (env w.waits).isr_after
    (by
      rcases henv w.waits with h | h | h
      · left
        unfold group_at_wait
        rw [h, if_pos rfl]
        exact or_and_self_right _ _
      · exact Or.inr (Or.inl h)
      · exact Or.inr (Or.inr h))
  obtain ⟨r, hr⟩ := Option.isSome_iff_exists.mp hsome
  have hticks : wait_ticks cfg 0 = portMAX_DELAY := rfl
  unfold uc8151d_wait_busy
  simp [hw, hticks, hr, busy_wait_no_timeout]

theorem emits_sleep (cfg : Config) (env : Nat → BusyEnv) (henv : waits_return cfg env) :
    Emits (uc8151d_sleep cfg env) (sleep_events cfg) 1 :=
  (((((emits_send_cmd cfg 0x50).seq (emits_send_data_byte cfg 0xf7)).seq
    (emits_send_cmd cfg 0x02)).seq (emits_wait_busy cfg env henv)).seq
    (emits_send_cmd cfg 0x07)).seq (emits_send_data_byte cfg 0xa5)

theorem emits_orientation (cfg : Config) :
    Emits (fun w =>
      if cfg.ORIENTATION_PORTRAIT_INVERTED then uc8151d_spi_send_data_byte cfg 0x13 w
      else if cfg.ORIENTATION_PORTRAIT then uc8151d_spi_send_data_byte cfg 0x1f w
      else w) (orientation_events cfg) 0 := by
  unfold orientation_events
  cases cfg.ORIENTATION_PORTRAIT_INVERTED
  · cases cfg.ORIENTATION_PORTRAIT
    · exact emits_nothing
    · exact emits_send_data_byte cfg 0x1f
  · exact emits_send_data_byte cfg 0x13

theorem emits_panel_init (cfg : Config) (env : Nat → BusyEnv) (henv : waits_return cfg env) :
    Emits (uc8151d_panel_init cfg env) (bring_up_events cfg) 1 := by
  have h3 : Emits (Nat.iterate (uc8151d_reset cfg) 3)
      (reset_events cfg ++ reset_events cfg ++ reset_events cfg) 0 := by
    have := emits_iterate (emits_reset cfg) 3
    simpa [List.replicate, List.flatten] using this
  exact (((((h3.seq (emits_send_cmd cfg 0x04)).seq (emits_wait_busy cfg env henv)).seq
    (emits_send_cmd cfg 0x00)).seq (emits_orientation cfg)).seq
    (emits_send_cmd cfg 0x50)).seq (emits_send_data_byte cfg 0x97)

theorem emits_fill_new_data (cfg : Config) (buf : Nat → Nat) (rows buf_ptr : Nat) :
    Emits (fill_new_data cfg buf rows buf_ptr)
      ((List.range rows).map (fun i =>
        data_events cfg (read_bytes buf (buf_ptr + i * EPD_ROW_LEN cfg) (EPD_ROW_LEN cfg)))).flatten
      0 := by
  induction rows generalizing buf_ptr with
  | zero =>
    intro w hw
    simpa [fill_new_data] using hw
  | succ n ih =>
    intro w hw
    obtain ⟨s1, t1, n1⟩ :=
      emits_send_data cfg (read_bytes buf buf_ptr (EPD_ROW_LEN cfg)) w hw
    obtain ⟨s2, t2, n2⟩ := ih (buf_ptr + EPD_ROW_LEN cfg) _ s1
    have hrows : (List.range (n + 1)).map (fun i =>
          data_events cfg (read_bytes buf (buf_ptr + i * EPD_ROW_LEN cfg) (EPD_ROW_LEN cfg)))
        = data_events cfg (read_bytes buf buf_ptr (EPD_ROW_LEN cfg)) ::
          (List.range n).map (fun i => data_events cfg
            (read_bytes buf (buf_ptr + EPD_ROW_LEN cfg + i * EPD_ROW_LEN cfg)
              (EPD_ROW_LEN cfg))) := by
      rw [List.range_succ_eq_map, List.map_cons, List.map_map]
      congr 1
      · simp
      · apply List.map_congr_left
        intro i _
        simp only [Function.comp, Nat.succ_eq_add_one]
        congr 2
        rw [Nat.add_mul, Nat.one_mul]
        omega
    unfold fill_new_data
    refine ⟨s2, ?_, ?_⟩
    · rw [t2, t1, hrows, List.flatten_cons, List.append_assoc]
    · rw [n2, n1]

theorem emits_full_update_body (cfg : Config) (env : Nat → BusyEnv) (buf : Nat → Nat)
    (henv : waits_return cfg env) :
    Emits (fun w =>
      uc8151d_sleep cfg env
        (uc8151d_wait_busy cfg env 0
          (emit (Event.vTaskDelay (pdMS_TO_TICKS cfg 10))
            (uc8151d_spi_send_cmd cfg 0x12
              (fill_new_data cfg buf cfg.EPD_HEIGHT 0
                (uc8151d_spi_send_cmd cfg 0x13
                  (Nat.iterate
                    (uc8151d_spi_send_data cfg (List.replicate (EPD_ROW_LEN cfg) 0))
                    cfg.EPD_HEIGHT (uc8151d_spi_send_cmd cfg 0x10 w))))))).2)
      (update_events cfg buf) 2 := by
  have hrows := emits_fill_new_data cfg buf cfg.EPD_HEIGHT 0
  simp only [Nat.zero_add] at hrows
  have hold := emits_iterate
    (emits_send_data cfg (List.replicate (EPD_ROW_LEN cfg) 0)) cfg.EPD_HEIGHT
  rw [Nat.mul_zero] at hold
  exact (((((((emits_send_cmd cfg 0x10).seq hold).seq (emits_send_cmd cfg 0x13)).seq
    hrows).seq (emits_send_cmd cfg 0x12)).seq (emits_emit _)).seq
    (emits_wait_busy cfg env henv)).seq (emits_sleep cfg env henv)

theorem emits_full_update (cfg : Config) (env : Nat → BusyEnv) (buf : Nat → Nat)
    (henv : waits_return cfg env) :
    Emits (uc8151d_full_update cfg env buf) (bring_up_events cfg ++ update_events cfg buf) 3 :=
  (emits_panel_init cfg env henv).seq (emits_full_update_body cfg env buf henv)

/-! ## The DC discipline -/

theorem dc_discipline_nil (cfg : Config) : dc_discipline cfg [] := by
  intro i kind bytes h
  simp at h

theorem dc_discipline_append (cfg : Config) (t u : List Event) (ht : dc_discipline cfg t)
    (hu : dc_discipline cfg u) : dc_discipline cfg (t ++ u) := by
  intro i kind bytes h
  by_cases hi : i < t.length
  · rw [List.getElem?_append_left hi] at h
    obtain ⟨j, hj, h0, h1⟩ := ht i kind bytes h
    refine ⟨j, hj, ?_, ?_⟩
    · rw [List.getElem?_append_left (by omega)]; exact h0
    · rw [List.getElem?_append_left (by omega)]; exact h1
  · rw [List.getElem?_append_right (by omega)] at h
    obtain ⟨j, hj, h0, h1⟩ := hu (i - t.length) kind bytes h
    refine ⟨t.length + j, by omega, ?_, ?_⟩
    · rw [List.getElem?_append_right (by omega)]
      simpa using h0
    · rw [List.getElem?_append_right (by omega)]
      have : t.length + j + 1 - t.length = j + 1 := by omega
      rw [this]; exact h1

theorem dc_discipline_single (cfg : Config) (e : Event)
    (he : ∀ kind bytes, e ≠ Event.disp_spi_send_data kind bytes) : dc_discipline cfg [e] := by
  intro i kind bytes h
  match i with
  | 0 =>
    simp at h
    exact absurd h (he kind bytes)
  | i + 1 => simp at h

theorem dc_discipline_unit (cfg : Config) (kind : XferKind) (bytes : List Nat) :
    dc_discipline cfg
      [Event.disp_wait_for_pending_transactions, Event.gpio_set_level cfg.PIN_DC (dc_level kind),
        Event.disp_spi_send_data kind bytes] := by
  intro i k b h
  match i with
  | 0 => simp at h
  | 1 => simp at h
  | 2 =>
    simp at h
    obtain ⟨rfl, rfl⟩ := h
    exact ⟨0, rfl, rfl, rfl⟩
  | i + 3 => simp at h

theorem Disciplined.chain {cfg : Config} {f g : World → World} (hf : Disciplined cfg f)
    (hg : Disciplined cfg g) : Disciplined cfg (fun w => g (f w)) := by
  intro w
  obtain ⟨e1, t1, d1⟩ := hf w
  obtain ⟨e2, t2, d2⟩ := hg (f w)
  exact ⟨e1 ++ e2, by rw [t2, t1, List.append_assoc], dc_discipline_append cfg e1 e2 d1 d2⟩

theorem disciplined_nothing (cfg : Config) : Disciplined cfg (fun w => w) :=
  fun _ => ⟨[], (List.append_nil _).symm, dc_discipline_nil cfg⟩

theorem disciplined_emit (cfg : Config) (e : Event)
    (he : ∀ kind bytes, e ≠ Event.disp_spi_send_data kind bytes) : Disciplined cfg (emit e) := by
  intro w
  cases hs : w.status
  · exact ⟨[e], by simp [emit, hs], dc_discipline_single cfg e he⟩
  · exact ⟨[], by simp [emit, hs], dc_discipline_nil cfg⟩
  · exact ⟨[], by simp [emit, hs], dc_discipline_nil cfg⟩

theorem disciplined_send_cmd (cfg : Config) (cmd : Nat) :
    Disciplined cfg (uc8151d_spi_send_cmd cfg cmd) := by
  intro w
  cases hs : w.status
  · exact ⟨_, by simp [uc8151d_spi_send_cmd, emit, hs, dc_level],
      dc_discipline_unit cfg XferKind.command [cmd]⟩
  · exact ⟨[], by simp [uc8151d_spi_send_cmd, emit, hs], dc_discipline_nil cfg⟩
  · exact ⟨[], by simp [uc8151d_spi_send_cmd, emit, hs], dc_discipline_nil cfg⟩

theorem disciplined_send_data (cfg : Config) (data : List Nat) :
    Disciplined cfg (uc8151d_spi_send_data cfg data) := by
  intro w
  cases hs : w.status
  · exact ⟨_, by simp [uc8151d_spi_send_data, emit, hs, dc_level],
      dc_discipline_unit cfg XferKind.data data⟩
  · exact ⟨[], by simp [uc8151d_spi_send_data, emit, hs], dc_discipline_nil cfg⟩
  · exact ⟨[], by simp [uc8151d_spi_send_data, emit, hs], dc_discipline_nil cfg⟩

theorem disciplined_send_data_byte (cfg : Config) (data : Nat) :
    Disciplined cfg (uc8151d_spi_send_data_byte cfg data) := by
  intro w
  cases hs : w.status
  · exact ⟨_, by simp [uc8151d_spi_send_data_byte, emit, hs, dc_level],
      dc_discipline_unit cfg XferKind.data [data]⟩
  · exact ⟨[], by simp [uc8151d_spi_send_data_byte, emit, hs], dc_discipline_nil cfg⟩
  · exact ⟨[], by simp [uc8151d_spi_send_data_byte, emit, hs], dc_discipline_nil cfg⟩

theorem disciplined_wait_busy (cfg : Config) (env : Nat → BusyEnv) (timeout_ms : Nat) :
    Disciplined cfg (fun w => (uc8151d_wait_busy cfg env timeout_ms w).2) := by
  intro w
  have hev : dc_discipline cfg
      [Event.xEventGroupWaitBits EVT_BUSY true true (wait_ticks cfg timeout_ms)] :=
    dc_discipline_single cfg _ (by intro k b; simp)
  cases hs : w.status
  · refine ⟨_, ?_, hev⟩
    unfold uc8151d_wait_busy
    simp only [hs]
    split <;> rfl
  · exact ⟨[], by simp [uc8151d_wait_busy, hs], dc_discipline_nil cfg⟩
  · exact ⟨[], by simp [uc8151d_wait_busy, hs], dc_discipline_nil cfg⟩

theorem disciplined_iterate {cfg : Config} {f : World → World} (hf : Disciplined cfg f)
    (n : Nat) : Disciplined cfg (Nat.iterate f n) := by
  induction n with
  | zero => exact disciplined_nothing cfg
  | succ n ih => exact hf.chain ih

theorem disciplined_reset (cfg : Config) : Disciplined cfg (uc8151d_reset cfg) := by
  unfold uc8151d_reset
  cases cfg.USE_RST
  · exact disciplined_nothing cfg
  · exact (((disciplined_emit cfg _ (by intro k b; simp)).chain
      (disciplined_emit cfg _ (by intro k b; simp))).chain
      (disciplined_emit cfg _ (by intro k b; simp))).chain
      (disciplined_emit cfg _ (by intro k b; simp))

theorem disciplined_sleep (cfg : Config) (env : Nat → BusyEnv) :
    Disciplined cfg (uc8151d_sleep cfg env) :=
  (((((disciplined_send_cmd cfg 0x50).chain (disciplined_send_data_byte cfg 0xf7)).chain
    (disciplined_send_cmd cfg 0x02)).chain (disciplined_wait_busy cfg env 0)).chain
    (disciplined_send_cmd cfg 0x07)).chain (disciplined_send_data_byte cfg 0xa5)

theorem disciplined_orientation (cfg : Config) :
    Disciplined cfg (fun w =>
      if cfg.ORIENTATION_PORTRAIT_INVERTED then uc8151d_spi_send_data_byte cfg 0x13 w
      else if cfg.ORIENTATION_PORTRAIT then uc8151d_spi_send_data_byte cfg 0x1f w
      else w) := by
  cases cfg.ORIENTATION_PORTRAIT_INVERTED
  · cases cfg.ORIENTATION_PORTRAIT
    · exact disciplined_nothing cfg
    · exact disciplined_send_data_byte cfg 0x1f
  · exact disciplined_send_data_byte cfg 0x13

theorem disciplined_panel_init (cfg : Config) (env : Nat → BusyEnv) :
    Disciplined cfg (uc8151d_panel_init cfg env) :=
  ((((((disciplined_iterate (disciplined_reset cfg) 3).chain (disciplined_send_cmd cfg 0x04)).chain
    (disciplined_wait_busy cfg env 0)).chain (disciplined_send_cmd cfg 0x00)).chain
    (disciplined_orientation cfg)).chain (disciplined_send_cmd cfg 0x50)).chain
    (disciplined_send_data_byte cfg 0x97)

theorem disciplined_fill_new_data (cfg : Config) (buf : Nat → Nat) (rows buf_ptr : Nat) :
    Disciplined cfg (fill_new_data cfg buf rows buf_ptr) := by
  induction rows generalizing buf_ptr with
  | zero => exact disciplined_nothing cfg
  | succ n ih => exact (disciplined_send_data cfg _).chain (ih _)

theorem disciplined_full_update (cfg : Config) (env : Nat → BusyEnv) (buf : Nat → Nat) :
    Disciplined cfg (uc8151d_full_update cfg env buf) :=
  ((((((((disciplined_panel_init cfg env).chain (disciplined_send_cmd cfg 0x10)).chain
    (disciplined_iterate (disciplined_send_data cfg _) cfg.EPD_HEIGHT)).chain
    (disciplined_send_cmd cfg 0x13)).chain
    (disciplined_fill_new_data cfg buf cfg.EPD_HEIGHT 0)).chain
    (disciplined_send_cmd cfg 0x12)).chain
    (disciplined_emit cfg _ (by intro k b; simp))).chain
    (disciplined_wait_busy cfg env 0)).chain (disciplined_sleep cfg env)

theorem disciplined_error_check (cfg : Config) (ret : Nat) :
    Disciplined cfg (ESP_ERROR_CHECK ret) := by
  intro w
  refine ⟨[], ?_, dc_discipline_nil cfg⟩
  unfold ESP_ERROR_CHECK
  cases w.status
  · by_cases h : ret = ESP_OK <;> simp [h]
  · simp
  · simp

theorem disciplined_init (cfg : Config) (env : Nat → BusyEnv) (evts : Option Nat)
    (gpio_config_ret : Nat) :
    Disciplined cfg (uc8151d_init cfg env evts gpio_config_ret) := by
  cases evts with
  | none => exact disciplined_nothing cfg
  | some handle =>
    exact ((((disciplined_emit cfg _ (by intro k b; simp)).chain
      (disciplined_error_check cfg gpio_config_ret)).chain
      (disciplined_emit cfg _ (by intro k b; simp))).chain
      (disciplined_emit cfg _ (by intro k b; simp))).chain (disciplined_panel_init cfg env)

/-! ## Panel driver: claims C1 and C6 to C10 -/

theorem read_bytes_append (buf : Nat → Nat) (ptr a b : Nat) :
    read_bytes buf ptr (a + b) = read_bytes buf ptr a ++ read_bytes buf (ptr + a) b := by
  unfold read_bytes
  rw [List.range_add, List.map_append, List.map_map]
  congr 1
  apply List.map_congr_left
  intro j _
  simp [Function.comp, Nat.add_assoc]

/-- The rows sent by the second loop, laid end to end, are the first `rows * len` bytes. -/
theorem rows_cover_buffer (buf : Nat → Nat) (len rows : Nat) :
    ((List.range rows).map (fun i => read_bytes buf (i * len) len)).flatten
      = read_bytes buf 0 (rows * len) := by
  induction rows with
  | zero => simp [read_bytes]
  | succ n ih =>
    rw [List.range_succ, List.map_append, List.flatten_append, ih, Nat.succ_mul,
      read_bytes_append]
    simp

/-- C1: for every framebuffer, when every wait returns, the events `uc8151d_full_update(buf)`
emits after its panel bring-up are, in order and with nothing in between: command 0x10;
`EPD_HEIGHT` data transfers of `EPD_ROW_LEN` zero bytes each; command 0x13; `EPD_HEIGHT` data
transfers, the i-th carrying bytes `[i * EPD_ROW_LEN, (i + 1) * EPD_ROW_LEN)` of `buf`; command
0x12; a delay requested as 10 ms; a busy-wait with no timeout; the events of `uc8151d_sleep`.
The rows laid end to end are `buf[0 .. EPD_HEIGHT * EPD_ROW_LEN)`; for a panel of height 200
these are 200 transfers of 25 zero bytes and 200 transfers of 25 bytes covering
`buf[0 .. 5000)`. -/
theorem full_update_trace (cfg : Config) (env : Nat → BusyEnv) (buf : Nat → Nat) (w : World)
    (henv : waits_return cfg env) (hw : w.status = Status.running) :
    (uc8151d_full_update cfg env buf w).trace
        = (uc8151d_panel_init cfg env w).trace ++
          (command_events cfg 0x10 ++
            (List.replicate cfg.EPD_HEIGHT
              (data_events cfg (List.replicate (EPD_ROW_LEN cfg) 0))).flatten ++
            command_events cfg 0x13 ++
            ((List.range cfg.EPD_HEIGHT).map (fun i => data_events cfg
              (read_bytes buf (i * EPD_ROW_LEN cfg) (EPD_ROW_LEN cfg)))).flatten ++
            command_events cfg 0x12 ++ [Event.vTaskDelay (pdMS_TO_TICKS cfg 10)] ++
            busy_wait_no_timeout ++ sleep_events cfg) ∧
      (uc8151d_full_update cfg env buf w).status = Status.running ∧
      (∀ v, v.status = Status.running →
        (uc8151d_sleep cfg env v).trace = v.trace ++ sleep_events cfg) ∧
      ((List.range cfg.EPD_HEIGHT).map
          (fun i => read_bytes buf (i * EPD_ROW_LEN cfg) (EPD_ROW_LEN cfg))).flatten
        = read_bytes buf 0 (cfg.EPD_HEIGHT * EPD_ROW_LEN cfg) ∧
      (cfg.EPD_HEIGHT = 200 →
        EPD_ROW_LEN cfg = 25 ∧
        (List.replicate cfg.EPD_HEIGHT
            (data_events cfg (List.replicate (EPD_ROW_LEN cfg) 0))).flatten
          = (List.replicate 200 (data_events cfg (List.replicate 25 0))).flatten ∧
        ((List.range cfg.EPD_HEIGHT).map (fun i => data_events cfg
            (read_bytes buf (i * EPD_ROW_LEN cfg) (EPD_ROW_LEN cfg)))).flatten
          = ((List.range 200).map (fun i => data_events cfg
              (read_bytes buf (i * 25) 25))).flatten ∧
        ((List.range 200).map (fun i => read_bytes buf (i * 25) 25)).flatten
          = read_bytes buf 0 5000) := by
  obtain ⟨s1, t1, -⟩ := emits_panel_init cfg env henv w hw
  obtain ⟨s2, t2, -⟩ := emits_full_update cfg env buf henv w hw
  refine ⟨?_, s2, fun v hv => (emits_sleep cfg env henv v hv).2.1,
    rows_cover_buffer buf _ _, ?_⟩
  · rw [t2, t1, List.append_assoc]
    rfl
  · intro h200
    have hrow : EPD_ROW_LEN cfg = 25 := by
      unfold EPD_ROW_LEN
      rw [h200]
    refine ⟨hrow, ?_, ?_, rows_cover_buffer buf 25 200⟩
    · rw [h200, hrow]
    · rw [h200, hrow]

/-- Instance of `full_update_trace`: the 200 x 200 panel with a busy line that answers every wait.
-/
theorem full_update_trace_witness :
    waits_return panel200 env_prompt ∧ World.start.status = Status.running ∧
      panel200.EPD_HEIGHT = 200 ∧
      (uc8151d_full_update panel200 env_prompt ramp World.start).trace
        = (uc8151d_panel_init panel200 env_prompt World.start).trace ++
          (command_events panel200 0x10 ++
            (List.replicate 200 (data_events panel200 (List.replicate 25 0))).flatten ++
            command_events panel200 0x13 ++
            ((List.range 200).map (fun i => data_events panel200
              (read_bytes ramp (i * 25) 25))).flatten ++
            command_events panel200 0x12 ++ [Event.vTaskDelay (pdMS_TO_TICKS panel200 10)] ++
            busy_wait_no_timeout ++ sleep_events panel200) ∧
      ((List.range 200).map (fun i => read_bytes ramp (i * 25) 25)).flatten
        = read_bytes ramp 0 5000 :=
  ⟨fun _ => Or.inr (Or.inl rfl), rfl, rfl,
    (full_update_trace panel200 env_prompt ramp World.start
      (fun _ => Or.inr (Or.inl rfl)) rfl).1,
    ((full_update_trace panel200 env_prompt ramp World.start
      (fun _ => Or.inr (Or.inl rfl)) rfl).2.2.2.2 rfl).2.2.2⟩

/-- C6: in the event trace of `uc8151d_init` (whose bus traffic is the panel bring-up) and of
`uc8151d_full_update`, for every framebuffer and every behaviour of the busy line, every bus
transfer is immediately preceded by a set of the DC pin, itself immediately preceded by a drain
of pending transactions, and the level set is 0 for a command byte and 1 for a data payload. -/
theorem dc_pin_discipline (cfg : Config) (env : Nat → BusyEnv) (buf : Nat → Nat)
    (evts : Option Nat) (gpio_config_ret : Nat) :
    dc_discipline cfg (uc8151d_init cfg env evts gpio_config_ret World.start).trace ∧
      dc_discipline cfg (uc8151d_panel_init cfg env World.start).trace ∧
      dc_discipline cfg (uc8151d_full_update cfg env buf World.start).trace ∧
      dc_level XferKind.command = 0 ∧ dc_level XferKind.data = 1 := by
  refine ⟨?_, ?_, ?_, rfl, rfl⟩
  · obtain ⟨evs, ht, hd⟩ := disciplined_init cfg env evts gpio_config_ret World.start
    rw [ht]
    exact dc_discipline_append cfg _ _ (dc_discipline_nil cfg) hd
  · obtain ⟨evs, ht, hd⟩ := disciplined_panel_init cfg env World.start
    rw [ht]
    exact dc_discipline_append cfg _ _ (dc_discipline_nil cfg) hd
  · obtain ⟨evs, ht, hd⟩ := disciplined_full_update cfg env buf World.start
    rw [ht]
    exact dc_discipline_append cfg _ _ (dc_discipline_nil cfg) hd

theorem xor_and_self_and (b m : Nat) : (b ^^^ (b &&& m)) &&& m = 0 := by
  apply Nat.eq_of_testBit_eq
  intro i
  rw [Nat.testBit_and, Nat.testBit_xor, Nat.testBit_and, Nat.zero_testBit]
  cases b.testBit i <;> cases m.testBit i <;> rfl

theorem and_busy_cases (g : Nat) : g &&& EVT_BUSY = EVT_BUSY ∨ g &&& EVT_BUSY = 0 := by
  unfold EVT_BUSY
  rw [Nat.and_one_is_mod]
  omega

theorem wait_bits_in_time (cfg : Config) (group : Nat) (isr_after : Option Nat) (ticks : Nat)
    (h : busy_in_time cfg group isr_after ticks) :
    ∃ bits left, xEventGroupWaitBits cfg group isr_after EVT_BUSY true true ticks
        = some (bits, left) ∧ bits &&& EVT_BUSY = EVT_BUSY ∧ left &&& EVT_BUSY = 0 := by
  unfold xEventGroupWaitBits
  have hset : wait_condition (group ||| EVT_BUSY) EVT_BUSY true = true := by
    simp [wait_condition, or_and_self_right]
  by_cases hc : wait_condition group EVT_BUSY true = true
  · have hg : group &&& EVT_BUSY = EVT_BUSY := by simpa [wait_condition] using hc
    refine ⟨group, group ^^^ (group &&& EVT_BUSY), ?_, hg, xor_and_self_and _ _⟩
    simp [hc, wait_exit]
  · have hg : ¬ (group &&& EVT_BUSY = EVT_BUSY) := by simpa [wait_condition] using hc
    rcases h with h | ⟨k, hk, hin⟩
    · exact absurd h hg
    · subst hk
      refine ⟨group ||| EVT_BUSY, (group ||| EVT_BUSY) ^^^ ((group ||| EVT_BUSY) &&& EVT_BUSY),
        ?_, or_and_self_right _ _, xor_and_self_and _ _⟩
      have hcond : (waits_forever cfg ticks || decide (k < ticks)) = true := by
        rcases hin with h | h
        · simp [h]
        · simp [h]
      simp only [hc, hcond, hset, wait_exit]
      simp

theorem wait_bits_timeout (cfg : Config) (group : Nat) (isr_after : Option Nat) (ticks : Nat)
    (h : ¬ busy_in_time cfg group isr_after ticks) (hf : waits_forever cfg ticks = false) :
    xEventGroupWaitBits cfg group isr_after EVT_BUSY true true ticks = some (group, group) ∧
      group &&& EVT_BUSY = 0 := by
  have hg : ¬ (group &&& EVT_BUSY = EVT_BUSY) := fun hg => h (Or.inl hg)
  have hc : ¬ (wait_condition group EVT_BUSY true = true) := by simpa [wait_condition] using hg
  refine ⟨?_, (and_busy_cases group).resolve_left hg⟩
  unfold xEventGroupWaitBits
  cases isr_after with
  | none => simp [hc, hf]
  | some k =>
    have hk : ¬ k < ticks := fun hk => h (Or.inr ⟨k, rfl, Or.inr hk⟩)
    simp [hc, hf, hk]

theorem wait_bits_never (cfg : Config) (group : Nat) (isr_after : Option Nat) (ticks : Nat)
    (h : ¬ busy_in_time cfg group isr_after ticks) (hf : waits_forever cfg ticks = true) :
    xEventGroupWaitBits cfg group isr_after EVT_BUSY true true ticks = none := by
  have hg : ¬ (group &&& EVT_BUSY = EVT_BUSY) := fun hg => h (Or.inl hg)
  have hc : ¬ (wait_condition group EVT_BUSY true = true) := by simpa [wait_condition] using hg
  unfold xEventGroupWaitBits
  cases isr_after with
  | none => simp [hc, hf]
  | some k => exact absurd (Or.inr ⟨k, rfl, Or.inl hf⟩) h

theorem pdMS_TO_TICKS_lt (cfg : Config) (ms : Nat) : pdMS_TO_TICKS cfg ms < portMAX_DELAY := by
  unfold pdMS_TO_TICKS portMAX_DELAY
  generalize (ms % 4294967296) * (cfg.configTICK_RATE_HZ % 4294967296) = p
  omega

/-- C8: `uc8151d_wait_busy(t)` waits for `portMAX_DELAY` when `t = 0` and for
`pdMS_TO_TICKS(t)` ticks, a finite bound that is never `portMAX_DELAY`, when `t > 0`. It returns
`ESP_OK`, leaving `EVT_BUSY` cleared, when the busy bit is set before the bound elapses; when it
is not, it returns `ESP_ERR_TIMEOUT` if the bound is finite and does not return if the wait is
unbounded. -/
theorem wait_busy_contract (cfg : Config) (env : Nat → BusyEnv) (t : Nat) (w : World)
    (hw : w.status = Status.running) :
    (t = 0 → wait_ticks cfg t = portMAX_DELAY) ∧
      (0 < t → wait_ticks cfg t = pdMS_TO_TICKS cfg t ∧ wait_ticks cfg t ≠ portMAX_DELAY ∧
        waits_forever cfg (wait_ticks cfg t) = false) ∧
      (uc8151d_wait_busy cfg env t w).2.trace
        = w.trace ++ [Event.xEventGroupWaitBits EVT_BUSY true true (wait_ticks cfg t)] ∧
      (busy_in_time cfg (group_at_wait env w) (env w.waits).isr_after (wait_ticks cfg t) →
        (uc8151d_wait_busy cfg env t w).1 = some ESP_OK ∧
        (uc8151d_wait_busy cfg env t w).2.group &&& EVT_BUSY = 0) ∧
      (¬ busy_in_time cfg (group_at_wait env w) (env w.waits).isr_after (wait_ticks cfg t) →
        waits_forever cfg (wait_ticks cfg t) = false →
        (uc8151d_wait_busy cfg env t w).1 = some ESP_ERR_TIMEOUT) ∧
      (¬ busy_in_time cfg (group_at_wait env w) (env w.waits).isr_after (wait_ticks cfg t) →
        waits_forever cfg (wait_ticks cfg t) = true →
        (uc8151d_wait_busy cfg env t w).1 = none) := by
  refine ⟨?_, ?_, ?_, ?_, ?_, ?_⟩
  · intro h0
    simp [wait_ticks, h0]
  · intro hpos
    have hne : t ≠ 0 := by omega
    have hlt := pdMS_TO_TICKS_lt cfg t
    have hticks : wait_ticks cfg t = pdMS_TO_TICKS cfg t := by simp [wait_ticks, hne]
    refine ⟨hticks, ?_, ?_⟩
    · rw [hticks]; omega
    · have : ¬ (pdMS_TO_TICKS cfg t = portMAX_DELAY) := by omega
      simp [waits_forever, hticks, this]
  · unfold uc8151d_wait_busy
    simp only [hw]
    split <;> rfl
  · intro hin
    obtain ⟨bits, left, hret, hbits, hleft⟩ := wait_bits_in_time cfg _ _ _ hin
    have hnz : bits &&& EVT_BUSY ≠ 0 := by rw [hbits]; decide
    unfold uc8151d_wait_busy
    simp only [hw, hret]
    exact ⟨by rw [if_pos hnz], hleft⟩
  · intro hout hf
    obtain ⟨hret, hzero⟩ := wait_bits_timeout cfg _ _ _ hout hf
    unfold uc8151d_wait_busy
    simp only [hw, hret]
    rw [if_neg (by rw [hzero]; decide)]
  · intro hout hf
    have hret := wait_bits_never cfg _ _ _ hout hf
    unfold uc8151d_wait_busy
    simp only [hw, hret]

/-- Instance of `wait_busy_contract`: a 100 ms wait (10 ticks) succeeds when the interrupt runs
after one tick and times out when it never runs. -/
theorem wait_busy_contract_witness :
    World.start.status = Status.running ∧ 0 < 100 ∧
      wait_ticks panel200 100 = 10 ∧
      busy_in_time panel200 (group_at_wait env_prompt World.start)
        (env_prompt World.start.waits).isr_after (wait_ticks panel200 100) ∧
      (uc8151d_wait_busy panel200 env_prompt 100 World.start).1 = some ESP_OK ∧
      ¬ busy_in_time panel200 (group_at_wait env_silent World.start)
        (env_silent World.start.waits).isr_after (wait_ticks panel200 100) ∧
      waits_forever panel200 (wait_ticks panel200 100) = false ∧
      (uc8151d_wait_busy panel200 env_silent 100 World.start).1 = some ESP_ERR_TIMEOUT :=
  have hin : busy_in_time panel200 (group_at_wait env_prompt World.start)
      (env_prompt World.start.waits).isr_after (wait_ticks panel200 100) :=
    Or.inr ⟨1, rfl, Or.inr (by decide)⟩
  have hout : ¬ busy_in_time panel200 (group_at_wait env_silent World.start)
      (env_silent World.start.waits).isr_after (wait_ticks panel200 100) := by
    rintro (h | ⟨k, hk, -⟩)
    · exact absurd h (by decide)
    · simp [env_silent] at hk
  ⟨rfl, by decide, by decide, hin,
    ((wait_busy_contract panel200 env_prompt 100 World.start rfl).2.2.2.1 hin).1,
    hout, by decide,
    (wait_busy_contract panel200 env_silent 100 World.start rfl).2.2.2.2.1 hout (by decide)⟩

/-- C9: if creating the event group fails (`xEventGroupCreate` returns `NULL`), `uc8151d_init`
returns without having made any call: no GPIO configuration, no interrupt-service registration,
no reset, no bus transfer and no busy-wait; its event trace is empty. -/
theorem init_without_event_group (cfg : Config) (env : Nat → BusyEnv) (gpio_config_ret : Nat)
    (w : World) :
    uc8151d_init cfg env none gpio_config_ret w = w ∧
      (uc8151d_init cfg env none gpio_config_ret World.start).trace = [] ∧
      (uc8151d_init cfg env none gpio_config_ret World.start).status = Status.running :=
  ⟨rfl, rfl, rfl⟩

theorem emits_error_check_ok : Emits (ESP_ERROR_CHECK ESP_OK) [] 0 := by
  intro w hw
  simp [ESP_ERROR_CHECK, hw]

theorem emits_init (cfg : Config) (env : Nat → BusyEnv) (handle : Nat)
    (henv : waits_return cfg env) :
    Emits (uc8151d_init cfg env (some handle) ESP_OK)
      ([Event.gpio_config
          { intr_type := GPIO_INTR_POSEDGE, mode := GPIO_MODE_INPUT,
            pin_bit_mask := PIN_BUSY_BIT cfg, pull_down_en := 0, pull_up_en := 1 },
        Event.gpio_install_isr_service 0,
        Event.gpio_isr_handler_add cfg.PIN_BUSY cfg.PIN_BUSY] ++ bring_up_events cfg) 1 :=
  ((((emits_emit _).seq emits_error_check_ok).seq (emits_emit _)).seq (emits_emit _)).seq
    (emits_panel_init cfg env henv)

/-- C10: when every wait returns, the panel bring-up emits exactly: the hardware reset sequence
three times (each: reset pin low, a delay requested as 20 ms, reset pin high, a delay requested
as 10 ms; nothing when `CONFIG_LV_DISP_USE_RST` is undefined); command 0x04; a busy-wait with no
timeout; command 0x00 followed by the orientation data byte (0x13 portrait-inverted, 0x1f
portrait, none otherwise); command 0x50 with data byte 0x97. `uc8151d_init` runs it after its
GPIO and interrupt setup, and `uc8151d_full_update` runs it first. -/
theorem bring_up_trace (cfg : Config) (env : Nat → BusyEnv) (buf : Nat → Nat) (handle : Nat)
    (w : World) (henv : waits_return cfg env) (hw : w.status = Status.running) :
    (uc8151d_panel_init cfg env w).trace = w.trace ++ bring_up_events cfg ∧
      bring_up_events cfg
        = reset_events cfg ++ reset_events cfg ++ reset_events cfg ++
          command_events cfg 0x04 ++ busy_wait_no_timeout ++ command_events cfg 0x00 ++
          orientation_events cfg ++ command_events cfg 0x50 ++ data_events cfg [0x97] ∧
      (cfg.USE_RST = true → reset_events cfg
        = [Event.gpio_set_level cfg.PIN_RST 0, Event.vTaskDelay (pdMS_TO_TICKS cfg 20),
            Event.gpio_set_level cfg.PIN_RST 1, Event.vTaskDelay (pdMS_TO_TICKS cfg 10)]) ∧
      (cfg.USE_RST = false → reset_events cfg = []) ∧
      (cfg.ORIENTATION_PORTRAIT_INVERTED = true →
        orientation_events cfg = data_events cfg [0x13]) ∧
      (cfg.ORIENTATION_PORTRAIT_INVERTED = false → cfg.ORIENTATION_PORTRAIT = true →
        orientation_events cfg = data_events cfg [0x1f]) ∧
      (cfg.ORIENTATION_PORTRAIT_INVERTED = false → cfg.ORIENTATION_PORTRAIT = false →
        orientation_events cfg = []) ∧
      (uc8151d_init cfg env (some handle) ESP_OK w).trace
        = w.trace ++
          [Event.gpio_config
              { intr_type := GPIO_INTR_POSEDGE, mode := GPIO_MODE_INPUT,
                pin_bit_mask := PIN_BUSY_BIT cfg, pull_down_en := 0, pull_up_en := 1 },
            Event.gpio_install_isr_service 0,
            Event.gpio_isr_handler_add cfg.PIN_BUSY cfg.PIN_BUSY] ++
          bring_up_events cfg ∧
      (uc8151d_full_update cfg env buf w).trace
        = w.trace ++ bring_up_events cfg ++ update_events cfg buf := by
  obtain ⟨-, t1, -⟩ := emits_panel_init cfg env henv w hw
  obtain ⟨-, t2, -⟩ := emits_init cfg env handle henv w hw
  obtain ⟨-, t3, -⟩ := emits_full_update cfg env buf henv w hw
  refine ⟨t1, rfl, ?_, ?_, ?_, ?_, ?_, ?_, ?_⟩
  · intro h
    simp [reset_events, h]
  · intro h
    simp [reset_events, h]
  · intro h
    simp [orientation_events, h]
  · intro h1 h2
    simp [orientation_events, h1, h2]
  · intro h1 h2
    simp [orientation_events, h1, h2]
  · rw [t2, List.append_assoc]
  · rw [t3, List.append_assoc]

/-- Instance of `bring_up_trace`: the events of the bring-up on the 200 x 200 portrait panel, with
DC on pin 19 and reset on pin 18. -/
theorem bring_up_trace_witness :
    waits_return panel200 env_prompt ∧ World.start.status = Status.running ∧
      panel200.USE_RST = true ∧ panel200.ORIENTATION_PORTRAIT_INVERTED = false ∧
      panel200.ORIENTATION_PORTRAIT = true ∧
      reset_events panel200
        = [Event.gpio_set_level 18 0, Event.vTaskDelay 2, Event.gpio_set_level 18 1,
            Event.vTaskDelay 1] ∧
      orientation_events panel200 = data_events panel200 [0x1f] ∧
      (uc8151d_panel_init panel200 env_prompt World.start).trace
        = [Event.gpio_set_level 18 0, Event.vTaskDelay 2, Event.gpio_set_level 18 1,
            Event.vTaskDelay 1,
            Event.gpio_set_level 18 0, Event.vTaskDelay 2, Event.gpio_set_level 18 1,
            Event.vTaskDelay 1,
            Event.gpio_set_level 18 0, Event.vTaskDelay 2, Event.gpio_set_level 18 1,
            Event.vTaskDelay 1,
            Event.disp_wait_for_pending_transactions, Event.gpio_set_level 19 0,
            Event.disp_spi_send_data XferKind.command [0x04],
            Event.xEventGroupWaitBits 1 true true 4294967295,
            Event.disp_wait_for_pending_transactions, Event.gpio_set_level 19 0,
            Event.disp_spi_send_data XferKind.command [0x00],
            Event.disp_wait_for_pending_transactions, Event.gpio_set_level 19 1,
            Event.disp_spi_send_data XferKind.data [0x1f],
            Event.disp_wait_for_pending_transactions, Event.gpio_set_level 19 0,
            Event.disp_spi_send_data XferKind.command [0x50],
            Event.disp_wait_for_pending_transactions, Event.gpio_set_level 19 1,
            Event.disp_spi_send_data XferKind.data [0x97]] :=
  ⟨fun _ => Or.inr (Or.inl rfl), rfl, rfl, rfl, rfl,
    ((bring_up_trace panel200 env_prompt ramp 1 World.start
      (fun _ => Or.inr (Or.inl rfl)) rfl).2.2.1 rfl).trans (by decide),
    (bring_up_trace panel200 env_prompt ramp 1 World.start
      (fun _ => Or.inr (Or.inl rfl)) rfl).2.2.2.2.2.1 rfl rfl,
    (bring_up_trace panel200 env_prompt ramp 1 World.start
      (fun _ => Or.inr (Or.inl rfl)) rfl).1.trans (by decide)⟩

/-! ## Sleep sub-sequence: claim C11 -/

/-- C11 (as stated, refuted): on the 200 x 200 panel, with a busy line that answers the wait,
the events of `uc8151d_sleep` are not the claimed ones: the data byte after command 0x50 is
0xf7, not 0x97. -/
theorem sleep_vcom_byte_is_f7 :
    (uc8151d_sleep panel200 env_prompt World.start).trace ≠ sleep_events_claimed panel200 ∧
      (uc8151d_sleep panel200 env_prompt World.start).trace[5]?
        = some (Event.disp_spi_send_data XferKind.data [0xf7]) ∧
      (sleep_events_claimed panel200)[5]?
        = some (Event.disp_spi_send_data XferKind.data [0x97]) := by
  decide

/-- C11 (amended): when every wait returns, the sleep sub-sequence that ends every
`uc8151d_full_update` emits exactly, in order: command 0x50 with data byte 0xf7, command 0x02, a
busy-wait with no timeout, command 0x07 with data byte 0xa5; nothing else is emitted by
`uc8151d_sleep`, and these are the last events of the full update. -/
theorem sleep_trace (cfg : Config) (env : Nat → BusyEnv) (buf : Nat → Nat) (w : World)
    (henv : waits_return cfg env) (hw : w.status = Status.running) :
    (uc8151d_sleep cfg env w).trace
        = w.trace ++
          (command_events cfg 0x50 ++ data_events cfg [0xf7] ++ command_events cfg 0x02 ++
            busy_wait_no_timeout ++ command_events cfg 0x07 ++ data_events cfg [0xa5]) ∧
      (uc8151d_sleep cfg env w).status = Status.running ∧
      ∃ before, (uc8151d_full_update cfg env buf w).trace
        = before ++
          (command_events cfg 0x50 ++ data_events cfg [0xf7] ++ command_events cfg 0x02 ++
            busy_wait_no_timeout ++ command_events cfg 0x07 ++ data_events cfg [0xa5]) := by
  obtain ⟨s1, t1, -⟩ := emits_sleep cfg env henv w hw
  obtain ⟨-, t2, -⟩ := emits_full_update cfg env buf henv w hw
  refine ⟨t1, s1, ?_⟩
  refine ⟨w.trace ++ (bring_up_events cfg ++
      (command_events cfg 0x10 ++
        (List.replicate cfg.EPD_HEIGHT
          (data_events cfg (List.replicate (EPD_ROW_LEN cfg) 0))).flatten ++
        command_events cfg 0x13 ++
        ((List.range cfg.EPD_HEIGHT).map (fun i => data_events cfg
          (read_bytes buf (i * EPD_ROW_LEN cfg) (EPD_ROW_LEN cfg)))).flatten ++
        command_events cfg 0x12 ++ [Event.vTaskDelay (pdMS_TO_TICKS cfg 10)] ++
        busy_wait_no_timeout)), ?_⟩
  rw [t2]
  simp only [update_events, sleep_events, List.append_assoc]

/-- Instance of `sleep_trace`: the sixteen events of `uc8151d_sleep` on the 200 x 200 panel. -/
theorem sleep_trace_witness :
    waits_return panel200 env_prompt ∧ World.start.status = Status.running ∧
      (uc8151d_sleep panel200 env_prompt World.start).trace
        = [Event.disp_wait_for_pending_transactions, Event.gpio_set_level 19 0,
            Event.disp_spi_send_data XferKind.command [0x50],
            Event.disp_wait_for_pending_transactions, Event.gpio_set_level 19 1,
            Event.disp_spi_send_data XferKind.data [0xf7],
            Event.disp_wait_for_pending_transactions, Event.gpio_set_level 19 0,
            Event.disp_spi_send_data XferKind.command [0x02],
            Event.xEventGroupWaitBits 1 true true 4294967295,
            Event.disp_wait_for_pending_transactions, Event.gpio_set_level 19 0,
            Event.disp_spi_send_data XferKind.command [0x07],
            Event.disp_wait_for_pending_transactions, Event.gpio_set_level 19 1,
            Event.disp_spi_send_data XferKind.data [0xa5]] :=
  ⟨fun _ => Or.inr (Or.inl rfl), rfl,
    (sleep_trace panel200 env_prompt ramp World.start
      (fun _ => Or.inr (Or.inl rfl)) rfl).1.trans (by decide)⟩

/-! ## Display helpers: claims C12 and C14 -/

theorem to_lv_coord_range (v : Int) : -32768 ≤ to_lv_coord v ∧ to_lv_coord v < 32768 := by
  unfold to_lv_coord
  omega

theorem square_fits_size_t (h : Int) (h1 : -32768 ≤ h) (h2 : h < 32768) :
    to_size_t (Int.tdiv (h * h) 8) = (h * h / 8).toNat := by
  have hsq : 0 ≤ h * h := mul_self_nonneg h
  have hle : h * h ≤ 32768 * 32768 := by nlinarith
  rw [Int.tdiv_eq_ediv hsq (by norm_num)]
  unfold to_size_t
  rw [Int.emod_eq_of_lt (by omega) (by omega)]

/-- C12 (as stated, refuted): for the UC8151D build with no custom size and a 256 x 128
resolution, `lvgl_get_display_buffer_size` returns 2048 bytes, while `width * row_length` with
`row_length = 128 / 8` is 4096. -/
theorem buffer_size_ignores_width :
    get_display_hor_res helpers_uc8151d { hor_res := 256, ver_res := 128 } = 256 ∧
      get_display_ver_res helpers_uc8151d { hor_res := 256, ver_res := 128 } = 128 ∧
      lvgl_get_display_buffer_size helpers_uc8151d { hor_res := 256, ver_res := 128 }
        = some 2048 ∧
      (2048 : Nat) ≠ 256 * (128 / 8) := by
  decide

/-- C12 (amended): for the UC8151D controller with no custom buffer size configured,
`lvgl_get_display_buffer_size` returns `height * height / 8` bytes (integer division) for every
display resolution, whatever the width; this is the full-frame size `width * row_length` with
`row_length = height / 8` whenever the width equals the height and the height is a multiple of
8, e.g. 5000 bytes for a 200 x 200 panel. -/
theorem buffer_size_uc8151d (hc : HelpersConfig) (drv : lv_disp_drv_t)
    (hctl : hc.controller = DisplayController.UC8151D)
    (hcustom : hc.CUSTOM_DISPLAY_BUFFER_BYTES = none) :
    lvgl_get_display_buffer_size hc drv
        = some (get_display_ver_res hc drv * get_display_ver_res hc drv / 8).toNat ∧
      (get_display_hor_res hc drv = get_display_ver_res hc drv →
        (8 : Int) ∣ get_display_ver_res hc drv →
        lvgl_get_display_buffer_size hc drv
          = some (get_display_hor_res hc drv * (get_display_ver_res hc drv / 8)).toNat) ∧
      (get_display_hor_res hc drv = 200 → get_display_ver_res hc drv = 200 →
        lvgl_get_display_buffer_size hc drv = some 5000) := by
  have hrange : -32768 ≤ get_display_ver_res hc drv ∧ get_display_ver_res hc drv < 32768 := by
    unfold get_display_ver_res
    split
    · exact to_lv_coord_range _
    · exact to_lv_coord_range _
  have hsize : lvgl_get_display_buffer_size hc drv
      = some (get_display_ver_res hc drv * get_display_ver_res hc drv / 8).toNat := by
    unfold lvgl_get_display_buffer_size
    rw [hcustom, hctl]
    simp only [forty_line_controller]
    rw [square_fits_size_t _ hrange.1 hrange.2]
    rfl
  refine ⟨hsize, ?_, ?_⟩
  · intro hsq hdiv
    rw [hsize, hsq, Int.mul_ediv_assoc _ hdiv]
  · intro _ hv
    rw [hsize, hv]
    rfl

/-- Instance of `buffer_size_uc8151d`: 5000 bytes for the 200 x 200 resolution. -/
theorem buffer_size_uc8151d_witness :
    helpers_uc8151d.controller = DisplayController.UC8151D ∧
      helpers_uc8151d.CUSTOM_DISPLAY_BUFFER_BYTES = none ∧
      get_display_hor_res helpers_uc8151d { hor_res := 200, ver_res := 200 } = 200 ∧
      get_display_ver_res helpers_uc8151d { hor_res := 200, ver_res := 200 } = 200 ∧
      lvgl_get_display_buffer_size helpers_uc8151d { hor_res := 200, ver_res := 200 }
        = some 5000 :=
  ⟨rfl, rfl, by decide, by decide,
    (buffer_size_uc8151d helpers_uc8151d { hor_res := 200, ver_res := 200 } rfl rfl).2.2
      (by decide) (by decide)⟩

/-- C14: with `SPI_HOST_MAX`, where the SDK defines it, no larger than `SPI3_HOST + 1`,
`lvgl_spi_driver_init` returns only when the host lies in `[SPI1_HOST, SPI3_HOST]` and the bus
initialisation returned `ESP_OK`; the host is then a valid index into the three-entry table
`spi_names` and the boolean result is `false`. In every other case an assertion fails; when
`SPI_HOST_MAX` is undefined the call returns in exactly those cases. -/
theorem spi_driver_init_return (hc : HelpersConfig) (host ret : Int)
    (hmax : ∀ m, hc.SPI_HOST_MAX = some m → m ≤ SPI3_HOST + 1) :
    (∀ result name, lvgl_spi_driver_init hc host ret = SpiInitOutcome.returned result name →
        SPI1_HOST ≤ host ∧ host ≤ SPI3_HOST ∧ ret = (ESP_OK : Int) ∧
        host.toNat < spi_names.length ∧ spi_names.length = 3 ∧
        name = spi_names[host.toNat]? ∧ name.isSome = true ∧ result = false) ∧
      (¬ (SPI1_HOST ≤ host ∧ host ≤ SPI3_HOST ∧ ret = (ESP_OK : Int)) →
        lvgl_spi_driver_init hc host ret = SpiInitOutcome.assertion_failed) ∧
      (hc.SPI_HOST_MAX = none → SPI1_HOST ≤ host → host ≤ SPI3_HOST →
        ret = (ESP_OK : Int) →
        lvgl_spi_driver_init hc host ret
          = SpiInitOutcome.returned false spi_names[host.toNat]?) := by
  have key : ∀ result name,
      lvgl_spi_driver_init hc host ret = SpiInitOutcome.returned result name →
        SPI1_HOST ≤ host ∧ host ≤ SPI3_HOST ∧ ret = (ESP_OK : Int) ∧
        host.toNat < spi_names.length ∧ spi_names.length = 3 ∧
        name = spi_names[host.toNat]? ∧ name.isSome = true ∧ result = false := by
    intro result name hret
    unfold lvgl_spi_driver_init at hret
    simp only at hret
    split at hret
    · rename_i hok
      split at hret
      · rename_i hr
        have hhost : SPI1_HOST ≤ host ∧ host ≤ SPI3_HOST := by
          unfold SPI1_HOST SPI3_HOST at *
          cases hm : hc.SPI_HOST_MAX with
          | none =>
            rw [hm] at hok
            simp only [Bool.and_eq_true, decide_eq_true_eq] at hok
            omega
          | some m =>
            have := hmax m hm
            rw [hm] at hok
            simp only [Bool.and_eq_true, decide_eq_true_eq] at hok
            omega
        injection hret with hres hname
        have h0 : 0 ≤ host := by
          have := hhost.1
          unfold SPI1_HOST at this
          exact this
        have hlen : host.toNat < spi_names.length := by
          have := hhost.2
          unfold SPI3_HOST at this
          have hl : spi_names.length = 3 := rfl
          omega
        rw [if_pos h0] at hname
        refine ⟨hhost.1, hhost.2, hr, hlen, rfl, hname.symm, ?_, ?_⟩
        · rw [← hname, List.getElem?_eq_getElem hlen]
          rfl
        · rw [← hres]
          simp [hr]
      · exact absurd hret (by simp)
    · exact absurd hret (by simp)
  refine ⟨key, ?_, ?_⟩
  · intro hnot
    cases hout : lvgl_spi_driver_init hc host ret with
    | assertion_failed => rfl
    | returned result name =>
      obtain ⟨a, b, c, -⟩ := key result name hout
      exact absurd ⟨a, b, c⟩ hnot
  · intro hnone h1 h3 hr
    have h0 : 0 ≤ host := by
      unfold SPI1_HOST at h1
      exact h1
    have hok : (decide (SPI1_HOST ≤ host) && decide (SPI3_HOST + 1 > host)) = true := by
      simp only [Bool.and_eq_true, decide_eq_true_eq]
      exact ⟨h1, by omega⟩
    unfold lvgl_spi_driver_init
    simp only [hnone, hok, if_pos, if_pos h0, hr]
    simp

/-- Instance of `spi_driver_init_return`: host `SPI2_HOST` with a successful bus
initialisation returns `false` after logging the name "SPI2_HOST"; host 3 fails the assertion. -/
theorem spi_driver_init_return_witness :
    (∀ m, helpers_uc8151d.SPI_HOST_MAX = some m → m ≤ SPI3_HOST + 1) ∧
      lvgl_spi_driver_init helpers_uc8151d SPI2_HOST 0
        = SpiInitOutcome.returned false (some "SPI2_HOST") ∧
      (SPI1_HOST ≤ SPI2_HOST ∧ SPI2_HOST ≤ SPI3_HOST ∧ (0 : Int) = (ESP_OK : Int)) ∧
      lvgl_spi_driver_init helpers_uc8151d 3 0 = SpiInitOutcome.assertion_failed :=
  have hmax : ∀ m, helpers_uc8151d.SPI_HOST_MAX = some m → m ≤ SPI3_HOST + 1 := by
    intro m hm
    simp [helpers_uc8151d] at hm
  ⟨hmax,
    (spi_driver_init_return helpers_uc8151d SPI2_HOST 0 hmax).2.2 rfl (by decide) (by decide)
      (by decide),
    ⟨((spi_driver_init_return helpers_uc8151d SPI2_HOST 0 hmax).1 false (some "SPI2_HOST")
        (by decide)).1,
      ((spi_driver_init_return helpers_uc8151d SPI2_HOST 0 hmax).1 false (some "SPI2_HOST")
        (by decide)).2.1,
      ((spi_driver_init_return helpers_uc8151d SPI2_HOST 0 hmax).1 false (some "SPI2_HOST")
        (by decide)).2.2.1⟩,
    (spi_driver_init_return helpers_uc8151d 3 0 hmax).2.1 (by decide)⟩

/-! ## Range of the byte index: claim C13 -/

/-- The size `lvgl_get_display_buffer_size` gives the UC8151D buffer when no custom size is
configured. -/
theorem uc8151d_buffer_bytes (hc : HelpersConfig) (drv : lv_disp_drv_t)
    (hctl : hc.controller = DisplayController.UC8151D)
    (hcustom : hc.CUSTOM_DISPLAY_BUFFER_BYTES = none) :
    lvgl_get_display_buffer_size hc drv
      = some (get_display_ver_res hc drv * get_display_ver_res hc drv / 8).toNat := by
  have hrange : -32768 ≤ get_display_ver_res hc drv ∧ get_display_ver_res hc drv < 32768 := by
    unfold get_display_ver_res
    split
    · exact to_lv_coord_range _
    · exact to_lv_coord_range _
  unfold lvgl_get_display_buffer_size
  rw [hcustom, hctl]
  simp only [forty_line_controller]
  rw [square_fits_size_t _ hrange.1 hrange.2]
  rfl

/-- C13 (as stated, refuted): on a 128 x 256 panel the in-bounds pixel `(0, 255)` has byte
index 8160, which is not below `EPD_WIDTH * EPD_ROW_LEN = 4096`; on a 150 x 150 panel the
in-bounds pixel `(149, 149)` has byte index 2700, which is `EPD_WIDTH * EPD_ROW_LEN` itself; and
on the default 256 x 128 panel the in-bounds pixel `(255, 127)` has byte index 2063, beyond the
2048 bytes that `lvgl_get_display_buffer_size` gives the buffer. -/
theorem byte_index_out_of_frame :
    in_bounds panel_tall 0 255 ∧ pixel_offset panel_tall 0 255 = 8160 ∧
      byte_index panel_tall 0 255 = 8160 ∧
      panel_tall.EPD_WIDTH * EPD_ROW_LEN panel_tall = 4096 ∧
      ¬ (byte_index panel_tall 0 255 < panel_tall.EPD_WIDTH * EPD_ROW_LEN panel_tall) ∧
      in_bounds panel150 149 149 ∧ byte_index panel150 149 149 = 2700 ∧
      panel150.EPD_WIDTH * EPD_ROW_LEN panel150 = 2700 ∧
      in_bounds panel_default 255 127 ∧ byte_index panel_default 255 127 = 2063 ∧
      lvgl_get_display_buffer_size helpers_uc8151d { hor_res := 256, ver_res := 128 }
        = some 2048 := by
  decide

/-- C13 (amended): for every square panel whose side is a multiple of 8
(`EPD_WIDTH = EPD_HEIGHT`, `8 ∣ EPD_HEIGHT`) and every in-bounds coordinate, the byte index
`(x >> 3) + y * EPD_ROW_LEN`, and with it the 16-bit `byte_index` that `uc8151d_lv_set_fb_cb`
reads and writes, is smaller than the framebuffer size `EPD_WIDTH * EPD_ROW_LEN`. That size is
then `EPD_HEIGHT * EPD_HEIGHT / 8`, the number of bytes `lvgl_get_display_buffer_size` gives the
UC8151D buffer for that resolution, so the access is within the buffer. -/
theorem byte_index_in_frame (cfg : Config) (x y : Int)
    (hsq : cfg.EPD_WIDTH = cfg.EPD_HEIGHT) (h8 : 8 ∣ cfg.EPD_HEIGHT)
    (hin : in_bounds cfg x y) :
    pixel_offset cfg x y < ((cfg.EPD_WIDTH * EPD_ROW_LEN cfg : Nat) : Int) ∧
      byte_index cfg x y < cfg.EPD_WIDTH * EPD_ROW_LEN cfg ∧
      cfg.EPD_WIDTH * EPD_ROW_LEN cfg = cfg.EPD_HEIGHT * cfg.EPD_HEIGHT / 8 ∧
      (∀ (hc : HelpersConfig) (drv : lv_disp_drv_t),
        hc.controller = DisplayController.UC8151D → hc.CUSTOM_DISPLAY_BUFFER_BYTES = none →
        get_display_ver_res hc drv = (cfg.EPD_HEIGHT : Int) →
        lvgl_get_display_buffer_size hc drv = some (cfg.EPD_WIDTH * EPD_ROW_LEN cfg) ∧
        ∃ size, lvgl_get_display_buffer_size hc drv = some size ∧
          byte_index cfg x y < size) := by
  obtain ⟨hx, hxw, hy, hyh⟩ := hin
  obtain ⟨r, hr⟩ := h8
  have hrow : EPD_ROW_LEN cfg = r := by
    unfold EPD_ROW_LEN
    rw [hr]
    exact Nat.mul_div_cancel_left r (by norm_num)
  lift x to ℕ using hx
  lift y to ℕ using hy
  have hxq : x / 8 < r := by omega
  have hy1 : y + 1 ≤ cfg.EPD_HEIGHT := by omega
  have hrows : (y + 1) * r ≤ cfg.EPD_HEIGHT * r := Nat.mul_le_mul_right _ hy1
  have hnat : x / 8 + y * r < cfg.EPD_WIDTH * r := by
    rw [hsq]
    rw [Nat.add_mul, Nat.one_mul] at hrows
    omega
  have hoff : pixel_offset cfg (x : Int) (y : Int)
      < ((cfg.EPD_WIDTH * EPD_ROW_LEN cfg : Nat) : Int) := by
    rw [pixel_offset_natCast, hrow]
    exact_mod_cast hnat
  have hbyte : byte_index cfg (x : Int) (y : Int) < cfg.EPD_WIDTH * EPD_ROW_LEN cfg := by
    have hle : (byte_index cfg (x : Int) (y : Int) : Int)
        ≤ pixel_offset cfg (x : Int) (y : Int) := by
      have h0 : 0 ≤ pixel_offset cfg (x : Int) (y : Int) :=
        pixel_offset_nonneg cfg _ _ (by omega) (by omega)
      have hb : (byte_index cfg (x : Int) (y : Int) : Int)
          = pixel_offset cfg (x : Int) (y : Int) % 4294967296 % 65536 := by
        unfold byte_index pixel_offset
        rw [Int.toNat_of_nonneg (by omega)]
      rw [hb]
      omega
    have : (byte_index cfg (x : Int) (y : Int) : Int)
        < ((cfg.EPD_WIDTH * EPD_ROW_LEN cfg : Nat) : Int) := lt_of_le_of_lt hle hoff
    exact_mod_cast this
  have hsize : cfg.EPD_WIDTH * EPD_ROW_LEN cfg = cfg.EPD_HEIGHT * cfg.EPD_HEIGHT / 8 := by
    rw [hrow, hsq]
    have h1 : cfg.EPD_HEIGHT * cfg.EPD_HEIGHT = 8 * (cfg.EPD_HEIGHT * r) := by
      conv_lhs => rw [hr]
      rw [hr]
      ring
    rw [h1, Nat.mul_div_cancel_left _ (by norm_num)]
  refine ⟨hoff, hbyte, hsize, ?_⟩
  intro hc drv hctl hcustom hver
  have hbuf : lvgl_get_display_buffer_size hc drv
      = some (cfg.EPD_WIDTH * EPD_ROW_LEN cfg) := by
    have hcast : ((cfg.EPD_HEIGHT : Int) * (cfg.EPD_HEIGHT : Int) / 8)
        = ((cfg.EPD_HEIGHT * cfg.EPD_HEIGHT / 8 : Nat) : Int) := by
      push_cast
      rfl
    rw [uc8151d_buffer_bytes hc drv hctl hcustom, hver, hsize, hcast, Int.toNat_natCast]
  exact ⟨hbuf, _, hbuf, hbyte⟩

/-- Instance of `byte_index_in_frame`: the last pixel `(199, 199)` of the 200 x 200 panel has
byte index 4999, below the 5000 bytes of the frame and of the buffer. -/
theorem byte_index_in_frame_witness :
    panel200.EPD_WIDTH = panel200.EPD_HEIGHT ∧ 8 ∣ panel200.EPD_HEIGHT ∧
      in_bounds panel200 199 199 ∧
      byte_index panel200 199 199 < panel200.EPD_WIDTH * EPD_ROW_LEN panel200 ∧
      byte_index panel200 199 199 = 4999 ∧
      panel200.EPD_WIDTH * EPD_ROW_LEN panel200 = 5000 ∧
      lvgl_get_display_buffer_size helpers_uc8151d { hor_res := 200, ver_res := 200 }
        = some (panel200.EPD_WIDTH * EPD_ROW_LEN panel200) :=
  ⟨rfl, by decide, by decide,
    (byte_index_in_frame panel200 199 199 rfl (by decide) (by decide)).2.1,
    by decide, by decide,
    ((byte_index_in_frame panel200 199 199 rfl (by decide) (by decide)).2.2.2
      helpers_uc8151d { hor_res := 200, ver_res := 200 } rfl rfl (by decide)).1⟩

/-! ## Busy-waits inside the driver operations: claim C7 -/

end UC8151D
